import Mathlib

/-!
# A shallow embedding of `tacview_client/client.py`

This file models the streaming parser, reference state, relationship
resolver, and binary COPY writer of the tacview client, and proves the
specification claims about them.

Conventions of the embedding:

* Python byte strings (`bytes` / `bytearray`) are modelled as `List Char`
  (every byte of interest is ASCII), named `Str` below.  We use `List Char`
  rather than Lean's `String` so that all operations are structural
  recursion and reduce inside the kernel.
* Python floats are modelled as exact rationals (`ℚ`).  The frames carry
  decimal literals, and the claims are about parsing, field routing and
  state transitions, not float rounding.
* The geodetic conversion (`get_cartesian_coord`) and euclidean distance
  (`compute_dist`) use `sqrt`/`sin`/`cos`, which have no exact rational
  counterpart; they are abstracted into a `Geo` parameter (a pair of
  functions).  All claims are proved for every `Geo`, or evaluated at a
  concrete test geometry whose distance on equal points is `0`, agreeing
  with the source (`sqrt 0 = 0`).
* Fallible Python code (raised exceptions) is modelled with
  `Except PyErr`.
* The database is modelled as lists of rows carried alongside the state.
-/

namespace Tacview

/-- Python byte strings / text, as a list of characters. -/
abbrev Str := List Char

/-- Convert a Lean string literal to the embedding's string type. -/
def str (s : String) : Str := s.toList

/-- Python exceptions that the modelled code can raise. -/
inductive PyErr where
  /-- `KeyError` (missing key in `obj_store`). -/
  | keyError : PyErr
  /-- `ValueError` (bad numeric literal, bad coordinate count, bad date). -/
  | valueError : PyErr
  /-- `TypeError` (e.g. arithmetic or `in` on `None`). -/
  | typeError : PyErr
  /-- `AttributeError` (e.g. `setattr` on an unknown `__slots__` name). -/
  | attributeError : PyErr
  /-- `NotImplementedError` (unknown `contact_type`). -/
  | notImplemented : PyErr
deriving DecidableEq, Repr

/-- Decidable equality for `Except`, for concrete evaluation of the
fallible operations. -/
instance exceptDecEq {ε α : Type} [DecidableEq ε] [DecidableEq α] :
    DecidableEq (Except ε α) := fun a b =>
  match a, b with
  | .ok x, .ok y => decidable_of_iff (x = y) (by simp)
  | .error x, .error y => decidable_of_iff (x = y) (by simp)
  | .ok _, .error _ => isFalse (by simp)
  | .error _, .ok _ => isFalse (by simp)

/-- `s.split(sep)` for a one-character separator, as in Python:
always returns at least one (possibly empty) piece. -/
def splitOnChar (sep : Char) : Str → List Str
  | [] => [[]]
  | c :: cs =>
    match splitOnChar sep cs with
    | [] => [[]]  -- unreachable: the result is never empty
    | h :: t => if c = sep then [] :: h :: t else (c :: h) :: t

/-- The result of `splitOnChar` is never empty. -/
theorem splitOnChar_ne_nil (sep : Char) (s : Str) : splitOnChar sep s ≠ [] := by
  cases s with
  | nil => simp [splitOnChar]
  | cons c cs =>
    simp only [splitOnChar]
    rcases h : splitOnChar sep cs with _ | ⟨h', t⟩ <;> simp
    split <;> simp

/-- Boolean prefix test on character lists. -/
def isPrefixList : Str → Str → Bool
  | [], _ => true
  | _ :: _, [] => false
  | a :: as, b :: bs => a = b && isPrefixList as bs

/-- Python's substring containment `needle in hay` (for nonempty needles). -/
def containsSub (hay needle : Str) : Bool :=
  match hay with
  | [] => isPrefixList needle []
  | _ :: rest => isPrefixList needle hay || containsSub rest needle

/-- `str.lower()`. -/
def pyLower (s : Str) : Str := s.map Char.toLower

/-- Count occurrences of a character, `bytes.count`. -/
def pyCount (s : Str) (c : Char) : Nat := s.count c

/-- Digit-string to number; `none` unless the string is nonempty and all
decimal digits. -/
def digitsToNat? (s : Str) : Option Nat :=
  if s ≠ [] ∧ s.all Char.isDigit then
    some (s.foldl (fun n c => 10 * n + (c.toNat - 48)) 0)
  else none

/-- Hex digit value. -/
def hexVal? (c : Char) : Option Nat :=
  if '0' ≤ c ∧ c ≤ '9' then some (c.toNat - 48)
  else if 'a' ≤ c ∧ c ≤ 'f' then some (c.toNat - 87)
  else if 'A' ≤ c ∧ c ≤ 'F' then some (c.toNat - 55)
  else none

/-- Python `int(s, 16)` on plain hex-digit strings. -/
def parseHex? (s : Str) : Option Nat :=
  if s = [] then none
  else s.foldl (fun acc c => acc.bind fun a => (hexVal? c).map fun v => 16 * a + v)
    (some 0)

/-- Python `float(s)` restricted to plain decimal literals
(optional sign, integer part, optional fraction); the frames in the ACMI
grammar only carry such literals. `none` models a raised `ValueError`. -/
def pyFloat? (s : Str) : Option ℚ :=
  let (sgn, body) :=
    match s with
    | '-' :: rest => ((-1 : ℚ), rest)
    | '+' :: rest => ((1 : ℚ), rest)
    | _ => ((1 : ℚ), s)
  match splitOnChar '.' body with
  | [ip] => (digitsToNat? ip).map fun n => sgn * n
  | [ip, fp] =>
    match ip, fp with
    | [], [] => none
    | [], _ =>
      (digitsToNat? fp).map fun f => sgn * (f : ℚ) / (10 : ℚ) ^ fp.length
    | _, [] => (digitsToNat? ip).map fun n => sgn * n
    | _, _ => do
      let n ← digitsToNat? ip
      let f ← digitsToNat? fp
      pure (sgn * ((n : ℚ) + (f : ℚ) / (10 : ℚ) ^ fp.length))
  | _ => none

/-! ## Datetime (`datetime.strptime` with format `%Y-%m-%dT%H:%M:%S.%fZ`) -/

/-- A Python `datetime` value, to the precision the client uses.
`utc = true` models `tzinfo = pytz.UTC`; `false` models a naive datetime. -/
structure PyDateTime where
  year : Nat
  month : Nat
  day : Nat
  hour : Nat
  minute : Nat
  second : Nat
  microsecond : Nat
  utc : Bool
deriving DecidableEq, Repr

/-- `datetime.strptime(s, '%Y-%m-%dT%H:%M:%S.%fZ')`.
`%f` reads 1–6 digits and right-pads them to microseconds.  `none` models
a raised `ValueError`.  (Calendar range validation is not modelled; the
claims only use valid dates.) -/
def strptimeRecording? (s : Str) : Option PyDateTime := do
  match splitOnChar 'T' s with
  | [d, t] =>
    match splitOnChar '-' d with
    | [ys, ms, ds] =>
      match t.reverse with
      | 'Z' :: revRest =>
        match splitOnChar ':' revRest.reverse with
        | [hs, mins, secfrac] =>
          match splitOnChar '.' secfrac with
          | [ss, fs] =>
            if 1 ≤ fs.length ∧ fs.length ≤ 6 then do
              let y ← digitsToNat? ys
              let mo ← digitsToNat? ms
              let da ← digitsToNat? ds
              let h ← digitsToNat? hs
              let mi ← digitsToNat? mins
              let se ← digitsToNat? ss
              let f ← digitsToNat? fs
              pure ⟨y, mo, da, h, mi, se, f * 10 ^ (6 - fs.length), false⟩
            else none
          | _ => none
        | _ => none
      | _ => none
    | _ => none
  | _ => none

/-! ## The data model: `ObjectRec`, `Ref`, and the database -/

/-- Cartesian (ECEF) coordinates, the value of `ObjectRec.cart_coords`. -/
abbrev Coord := ℚ × ℚ × ℚ

/-- The abstracted geometry: `getCart` models `get_cartesian_coord`
(geodetic → ECEF, floats with `sin`/`cos`/`sqrt`) and `dist` models
`compute_dist` (euclidean distance, a float `sqrt`). -/
structure Geo where
  getCart : ℚ → ℚ → ℚ → Coord
  dist : Coord → Coord → ℚ

/-- A concrete test geometry: `getCart` is the identity on the triple and
`dist` the L1 metric.  Like the source's `compute_dist`, it is `0` exactly
on equal points, which is all the concrete evaluations rely on. -/
def geoL1 : Geo where
  getCart la lo al := (la, lo, al)
  dist p q := |p.1 - q.1| + |p.2.1 - q.2.1| + |p.2.2 - q.2.2|

/-- `ObjectRec` (`client.py` lines 151–235).  Field types follow the
constructor: fields initialised to `None` are `Option`s. -/
structure ObjectRec where
  id : Option Int := none
  tac_id : Nat
  first_seen : ℚ
  last_seen : ℚ
  session_id : Option Nat
  alive : Bool := true
  Name : Option Str := none
  Color : Option Str := none
  Country : Option Str := none
  grp : Option Str := none
  Pilot : Option Str := none
  Type_ : Option Str := none
  Coalition : Option Str := none
  lat : Option ℚ := none
  lon : Option ℚ := none
  alt : Option ℚ := some 1  -- ships will have null alt
  roll : ℚ := 0
  pitch : ℚ := 0
  yaw : ℚ := 0
  u_coord : ℚ := 0
  v_coord : ℚ := 0
  heading : ℚ := 0
  impacted : Option Int := none
  impacted_dist : Option ℚ := none
  parent : Option Int := none
  parent_dist : Option ℚ := none
  updates : Nat := 1
  velocity_kts : ℚ := 0
  secs_since_last_seen : Option ℚ := none
  written : Bool := false
  cart_coords : Option Coord := none
  /-- `update_val` is a bare `setattr` over `__slots__`: a `KEY=VAL`
  chunk whose key names a *non-descriptive* slot (e.g. `updates`,
  `alive`, `lat`, `last_seen`) stores the raw Python *string* into that
  slot.  This ledger records such writes: an entry `(slot, s)` means the
  slot currently holds the string `s`; the typed field above keeps its
  stale pre-clobber value and is not the slot's Python value while an
  entry is present.  (In the source such a record kills the run in the
  same consumer step when a packed slot reaches `struct.pack`; a later
  typed write to the slot is not reached, so entries are never
  cleared.) -/
  py_str_slots : List (Str × Str) := []
deriving DecidableEq, Repr

/-- `ObjectRec.__init__` as called from `line_to_obj`. -/
def ObjectRec.new (tac_id : Nat) (first_seen last_seen : ℚ)
    (session_id : Option Nat) : ObjectRec :=
  { tac_id := tac_id, first_seen := first_seen, last_seen := last_seen,
    session_id := session_id }

/-- `update_last_seen`: sets `secs_since_last_seen` and `last_seen`. -/
def ObjectRec.update_last_seen (r : ObjectRec) (value : ℚ) : ObjectRec :=
  { r with secs_since_last_seen := some (value - r.last_seen),
           last_seen := value }

/-- `should_have_parent`: Type contains one of the parented type tags
(compared in lower case).  `self.Type.lower()` raises on `None`. -/
def ObjectRec.should_have_parent (r : ObjectRec) : Except PyErr Bool :=
  match r.Type_ with
  | none => .error .attributeError
  | some t =>
    let tval := pyLower t
    .ok ([str "weapon", str "projectile", str "decoy", str "container",
          str "flare"].any fun p => containsSub tval p)

/-- `can_be_parent` — the *method* (lines 226–235): Type contains none of
the excluded tags.  `t in None` raises `TypeError`. -/
def ObjectRec.can_be_parent (r : ObjectRec) : Except PyErr Bool :=
  match r.Type_ with
  | none => .error .typeError
  | some tval =>
    .ok (!([str "Decoy", str "Misc", str "Weapon", str "Projectile",
            str "Ground+Light+Human+Air+Parachutist"].any
            fun t => containsSub tval t))

/-- In the source, `determine_contact` tests `not near.can_be_parent`
*without calling the method*: `near.can_be_parent` is a bound-method
object, and any bound method is truthy in Python, so the test is never
taken.  This constant records that truthiness. -/
def method_truthy : Bool := true

/-- The in-memory object store: an association list from `tac_id` to
`ObjectRec`, in insertion order (a Python `dict` preserves insertion
order, and updating an existing key keeps its position). -/
abbrev Store := List (Nat × ObjectRec)

/-- Dictionary lookup `obj_store[key]` (as an `Option`). -/
def storeGet (st : Store) (k : Nat) : Option ObjectRec :=
  (st.find? fun p => p.1 == k).map (·.2)

/-- Dictionary write `obj_store[key] = rec` (update in place, else append). -/
def storeSet : Store → Nat → ObjectRec → Store
  | [], k, v => [(k, v)]
  | (k', v') :: rest, k, v =>
    if k' = k then (k', v) :: rest else (k', v') :: storeSet rest k v

/-- One field of the binary COPY stream, tagged with its width:
`sig` is the 11-byte `PGCOPY\n\377\r\n\0` signature, `i16` and `i32` are
big-endian 2- and 4-byte integers, `f32` a 4-byte float, `b8` a 1-byte
bool.  This is the token-level view of the `struct.pack` format string
`'>h ii ii if i? if if if if if if if if if if ii'` and of
`'>11sii'` and `'>h'`. -/
inductive PgTok where
  | sig : PgTok
  | i16 : Int → PgTok
  | i32 : Int → PgTok
  | f32 : ℚ → PgTok
  | b8 : Bool → PgTok
deriving DecidableEq, Repr

/-- Byte width of each token. -/
def tokSize : PgTok → Nat
  | .sig => 11
  | .i16 _ => 2
  | .i32 _ => 4
  | .f32 _ => 4
  | .b8 _ => 1

/-- One row of the `session` table (the columns the client writes). -/
structure SessionRow where
  session_id : Nat
  lat : Option ℚ
  lon : Option ℚ
  title : Option Str
  datasource : Option Str
  author : Option Str
  file_version : Option ℚ
  start_time : Option PyDateTime
  client_version : Str
  status : Str
deriving DecidableEq, Repr

/-- One row of the `impact` table. -/
structure ImpactRow where
  session_id : Option Nat
  killer : Option Int
  target : Option Int
  weapon : Option Int
  time_offset : ℚ
  impact_dist : Option ℚ
deriving DecidableEq, Repr

/-- The modelled database: the tables the client writes, in insert order.
`objects` stores the snapshot passed to `create_single`; `copied` stores
each binary COPY buffer the writer flushed. -/
structure Db where
  sessions : List SessionRow := []
  partitions : List Nat := []
  objects : List ObjectRec := []
  impacts : List ImpactRow := []
  copied : List (List PgTok) := []
deriving DecidableEq, Repr

/-- `Ref` (lines 59–79): the session reference state. -/
structure Ref where
  session_id : Option Nat := none
  lat : Option ℚ := none
  lon : Option ℚ := none
  title : Option Str := none
  datasource : Option Str := none
  author : Option Str := none
  file_version : Option ℚ := none
  start_time : Option PyDateTime := none
  time_offset : ℚ := 0
  all_refs : Bool := false
  time_since_last : ℚ := 0
  obj_store : Store := []
  client_version : Str := []   -- `__version__`; its value is irrelevant here
  status : Str := str "In Progress"
deriving DecidableEq, Repr

/-- Python truthiness of an `Optional[float]`: `None` and `0.0` are falsy. -/
def qTruthy : Option ℚ → Bool
  | none => false
  | some q => q != 0

/-- Python truthiness of an `Optional[int]`: `None` and `0` are falsy. -/
def natTruthy : Option Nat → Bool
  | none => false
  | some n => n != 0

/-- `update_time` (lines 81–85): `float(offset[1:])` then set the two
time fields; a bad literal raises `ValueError`. -/
def Ref.update_time (r : Ref) (offset : Str) : Except PyErr Ref :=
  match pyFloat? (offset.drop 1) with
  | none => .error .valueError
  | some q =>
    .ok { r with time_since_last := q - r.time_offset, time_offset := q }

/-! ## `parse_ref_obj` (lines 87–148) -/

/-- `parse_ref_obj`: extract one reference key from a header line, then
recompute `all_refs`, and on the `false → true` transition with
`session_id` unbound insert the session row (binding `session_id`) and
create the event partition.  Only `IndexError` is caught (`pass`);
`ValueError` from `float`/`strptime` propagates. -/
def parse_ref_obj (r : Ref) (db : Db) (line : Str) : Except PyErr (Ref × Db) :=
  let val := splitOnChar '=' ((splitOnChar ',' line).getLastD [])
  let key := val.headD []
  let upd : Except PyErr (Option Ref) :=
    if key = str "ReferenceLatitude" then
      match val[1]? with
      | none => .ok none
      | some v => match pyFloat? v with
        | none => .error .valueError
        | some q => .ok (some { r with lat := some q })
    else if key = str "ReferenceLongitude" then
      match val[1]? with
      | none => .ok none
      | some v => match pyFloat? v with
        | none => .error .valueError
        | some q => .ok (some { r with lon := some q })
    else if key = str "DataSource" then
      match val[1]? with
      | none => .ok none
      | some v => .ok (some { r with datasource := some v })
    else if key = str "Title" then
      match val[1]? with
      | none => .ok none
      | some v => .ok (some { r with title := some v })
    else if key = str "Author" then
      match val[1]? with
      | none => .ok none
      | some v => .ok (some { r with author := some v })
    else if key = str "FileVersion" then
      match val[1]? with
      | none => .ok none
      | some v => match pyFloat? v with
        | none => .error .valueError
        | some q => .ok (some { r with file_version := some q })
    else if key = str "RecordingTime" then
      match val[1]? with
      | none => .ok none
      | some v => match strptimeRecording? v with
        | none => .error .valueError
        | some dt =>
          -- microsecond=0, tzinfo=pytz.UTC
          .ok (some { r with start_time := some { dt with microsecond := 0, utc := true } })
    else .ok (some r)
  match upd with
  | .error e => .error e
  | .ok none => .ok (r, db)  -- IndexError: pass (no field was written yet)
  | .ok (some r1) =>
    -- `self.all_refs = bool(self.lat and self.lon and self.start_time)`:
    -- Python truthiness, so a 0.0 latitude or longitude counts as absent
    let r2 := { r1 with
      all_refs := qTruthy r1.lat && qTruthy r1.lon && r1.start_time.isSome }
    if r2.all_refs && !natTruthy r2.session_id then
      let sid := db.sessions.length + 1
      let row : SessionRow :=
        ⟨sid, r2.lat, r2.lon, r2.title, r2.datasource, r2.author,
         r2.file_version, r2.start_time, r2.client_version, r2.status⟩
      .ok ({ r2 with session_id := some sid },
           { db with sessions := db.sessions ++ [row],
                     partitions := db.partitions ++ [sid] })
    else .ok (r2, db)

/-! ## `determine_contact` (lines 257–309) -/

/-- The `closest` accumulator: `[near.id, prox, near.Name, near.Pilot,
near.Type]`. -/
structure Contact where
  id : Option Int
  prox : ℚ
  Name : Option Str
  Pilot : Option Str
  Type_ : Option Str
deriving DecidableEq, Repr

/-- The candidate loop of `determine_contact` (lines 281–296).  The three
`continue` tests appear in source order; note that the first one reads
`near.can_be_parent` without calling it (see `method_truthy`), and the
short-circuit of `and` means `near.Type.lower()` is only evaluated when
the candidate is stale. -/
def contact_scan (g : Geo) (rec : ObjectRec) (ct : Str)
    (acpt : List (Option Str)) (offset_time : ℚ) :
    List (Nat × ObjectRec) → Option Contact → Except PyErr (Option Contact)
  | [], closest => .ok closest
  | (_, near) :: rest, closest =>
    if (!method_truthy) || near.tac_id == rec.tac_id
        || !(acpt.contains near.Color) then
      contact_scan g rec ct acpt offset_time rest closest
    else
      let skipAir : Except PyErr Bool :=
        if ct = str "impacted" then
          match near.Type_ with
          | none => .error .attributeError
          | some t => .ok (!(isPrefixList (str "Air+") t))
        else .ok false
      skipAir.bind fun sa =>
      if sa then contact_scan g rec ct acpt offset_time rest closest
      else
        let skipStale : Except PyErr Bool :=
          if offset_time > near.last_seen then
            match near.Type_ with
            | none => .error .attributeError
            | some t =>
              .ok (!(containsSub (pyLower t) (str "Ground") && near.alive))
          else .ok false
        skipStale.bind fun st =>
        if st then contact_scan g rec ct acpt offset_time rest closest
        else
          match rec.cart_coords, near.cart_coords with
          | some rc, some nc =>
            let prox := g.dist rc nc
            let closest' :=
              match closest with
              | none => some (⟨near.id, prox, near.Name, near.Pilot, near.Type_⟩ : Contact)
              | some c =>
                if prox < c.prox then
                  some (⟨near.id, prox, near.Name, near.Pilot, near.Type_⟩ : Contact)
                else some c
            contact_scan g rec ct acpt offset_time rest closest'
          | _, _ => .error .typeError

/-- `determine_contact`: acceptable colors, candidate scan, and the
200 m rejection for parent mode. -/
def determine_contact (g : Geo) (rec : ObjectRec) (ref : Ref)
    (contact_type : Str) : Except PyErr (Option Contact) :=
  let acptE : Except PyErr (List (Option Str)) :=
    if contact_type = str "parent" then
      .ok (if rec.Color = some (str "Violet") then
             [some (str "Red"), some (str "Blue")]
           else [rec.Color])
    else if contact_type = str "impacted" then
      .ok (if rec.Color = some (str "Blue") then [some (str "Red")]
           else [some (str "Blue")])
    else .error .notImplemented
  acptE.bind fun acpt =>
  let offset_time := rec.last_seen - 5/2
  (contact_scan g rec contact_type acpt offset_time ref.obj_store none).bind
    fun closest =>
  match closest with
  | none => .ok none
  | some c =>
    if c.prox > 200 ∧ contact_type = str "parent" then .ok none
    else .ok (some c)

/-! ## Coordinate tuples and `line_to_obj` (lines 312–416) -/

/-- The coordinate field names used by the `T` key. -/
inductive CoordKey where
  | lon | lat | alt | roll | pitch | yaw | u_coord | v_coord | heading
deriving DecidableEq, Repr

def COORD_KEYS : List CoordKey :=
  [.lon, .lat, .alt, .roll, .pitch, .yaw, .u_coord, .v_coord, .heading]

def COORD_KEYS_SHORT : List CoordKey := [.lon, .lat, .alt, .u_coord, .v_coord]

def COORD_KEYS_MED : List CoordKey := [.lon, .lat, .alt, .roll, .pitch, .yaw]

def COORD_KEYS_X_SHORT : List CoordKey := [.lon, .lat, .alt]

/-- Assign one parsed coordinate: `lat`/`lon` are added to the session
origin (raising `TypeError` if the origin is `None`), all other fields
are stored absolutely (lines 392–399). -/
def set_coord (ref : Ref) (r : ObjectRec) (k : CoordKey) (q : ℚ) :
    Except PyErr ObjectRec :=
  match k with
  | .lat =>
    match ref.lat with
    | none => .error .typeError
    | some rl => .ok { r with lat := some (q + rl) }
  | .lon =>
    match ref.lon with
    | none => .error .typeError
    | some rl => .ok { r with lon := some (q + rl) }
  | .alt => .ok { r with alt := some q }
  | .roll => .ok { r with roll := q }
  | .pitch => .ok { r with pitch := q }
  | .yaw => .ok { r with yaw := q }
  | .u_coord => .ok { r with u_coord := q }
  | .v_coord => .ok { r with v_coord := q }
  | .heading => .ok { r with heading := q }

/-- The slot loop (lines 383–400): walk keys and `|`-separated slots in
lockstep; an empty slot leaves the field unchanged; the loop stops when
either keys or slots run out. -/
def apply_coords (ref : Ref) : ObjectRec → List CoordKey → List Str →
    Except PyErr ObjectRec
  | r, _, [] => .ok r
  | r, [], _ :: _ => .ok r
  | r, k :: ks, s :: ss =>
    if s = [] then apply_coords ref r ks ss
    else
      match pyFloat? s with
      | none => .error .valueError
      | some q => (set_coord ref r k q).bind fun r' => apply_coords ref r' ks ss

/-- The `T=` handler (lines 362–381): choose the key list from the pipe
count; any count other than 8, 5, 4, 2 raises `ValueError`. -/
def parse_T (ref : Ref) (r : ObjectRec) (val : Str) : Except PyErr ObjectRec :=
  let npipe := pyCount val '|'
  let slots := splitOnChar '|' val
  if npipe = 8 then apply_coords ref r COORD_KEYS slots
  else if npipe = 5 then apply_coords ref r COORD_KEYS_MED slots
  else if npipe = 4 then apply_coords ref r COORD_KEYS_SHORT slots
  else if npipe = 2 then apply_coords ref r COORD_KEYS_X_SHORT slots
  else .error .valueError

/-- The `__slots__` names of `ObjectRec` other than the seven
descriptive string fields.  `setattr` succeeds on all of them. -/
def internal_slots : List Str :=
  [str "id", str "tac_id", str "first_seen", str "last_seen",
   str "session_id", str "alive", str "lat", str "lon", str "alt",
   str "roll", str "pitch", str "yaw", str "u_coord", str "v_coord",
   str "heading", str "impacted", str "impacted_dist", str "parent",
   str "parent_dist", str "updates", str "velocity_kts",
   str "secs_since_last_seen", str "written", str "cart_coords"]

/-- Write to the raw-string slot ledger (replace or append). -/
def slotSet : List (Str × Str) → Str → Str → List (Str × Str)
  | [], k, v => [(k, v)]
  | (k', v') :: rest, k, v =>
    if k' = k then (k', v) :: rest else (k', v') :: slotSet rest k v

/-- Read the raw-string slot ledger. -/
def slotGet (ov : List (Str × Str)) (k : Str) : Option Str :=
  (ov.find? fun p => p.1 == k).map (·.2)

/-- `update_val` for `KEY=VAL` chunks other than `T` (lines 200–202 and
402): a bare `setattr` on the named slot.  A descriptive string field
stores the decoded string in the typed field; *any other* `__slots__`
name also succeeds in Python, storing the raw string into that slot —
recorded here in the `py_str_slots` ledger (see its doc).  Only a name
outside `__slots__` raises `AttributeError`. -/
def update_val_str (r : ObjectRec) (key v : Str) : Except PyErr ObjectRec :=
  if key = str "Name" then .ok { r with Name := some v }
  else if key = str "Color" then .ok { r with Color := some v }
  else if key = str "Country" then .ok { r with Country := some v }
  else if key = str "grp" then .ok { r with grp := some v }
  else if key = str "Pilot" then .ok { r with Pilot := some v }
  else if key = str "Type" then .ok { r with Type_ := some v }
  else if key = str "Coalition" then .ok { r with Coalition := some v }
  else if internal_slots.contains key then
    .ok { r with py_str_slots := slotSet r.py_str_slots key v }
  else .error .attributeError

/-- One `KEY=VAL` chunk (lines 358–403): the key is everything before the
first `=` (with no `=`, Python's `chunk[0:find]` with `find = -1` drops
the last character), the value everything after it; `Group` maps to
`grp`. -/
def proc_chunk (ref : Ref) (r : ObjectRec) (chunk : Str) :
    Except PyErr ObjectRec :=
  let (key, v) :=
    match splitOnChar '=' chunk with
    | [_] => (chunk.dropLast, chunk)
    | k0 :: rest => (k0, List.intercalate ['='] rest)
    | [] => (([] : Str), chunk)  -- unreachable
  if key = str "T" then parse_T ref r v
  else update_val_str r (if key = str "Group" then str "grp" else key) v

/-- The chunk loop of `line_to_obj`. -/
def proc_chunks (ref : Ref) : ObjectRec → List Str → Except PyErr ObjectRec
  | r, [] => .ok r
  | r, c :: cs => (proc_chunk ref r c).bind fun r' => proc_chunks ref r' cs

/-- `compute_velocity` (lines 209–215): recompute ECEF coordinates and,
when a previous snapshot and a positive time delta exist, the speed in
knots.  Missing `lat`/`lon`/`alt` raises (`radians(None)`). -/
def compute_velocity (g : Geo) (r : ObjectRec) : Except PyErr ObjectRec :=
  match r.lat, r.lon, r.alt with
  | some la, some lo, some al =>
    let ncc := g.getCart la lo al
    let r1 :=
      match r.cart_coords, r.secs_since_last_seen with
      | some cc, some s =>
        if 0 < s then
          { r with velocity_kts := g.dist ncc cc / s / (194384/100000 : ℚ) }
        else r
      | _, _ => r
    .ok { r1 with cart_coords := some ncc }
  | _, _, _ => .error .typeError

/-- The removal branch of `line_to_obj` (lines 319–331), for a record
`rec` found in the store under `rid`: mark it dead, bump `updates`, and
for weapons/projectiles run impact resolution, emitting an Impact row
when a target is found. -/
def proc_removal (g : Geo) (ref : Ref) (db : Db) (rid : Nat)
    (rec : ObjectRec) : Except PyErr (Ref × Db × Option ObjectRec) :=
  let rec1 := { rec with alive := false, updates := rec.updates + 1 }
  let store1 := storeSet ref.obj_store rid rec1
  let ref1 := { ref with obj_store := store1 }
  match rec1.Type_ with
  | none => .error .typeError  -- `'Weapon' in None`
  | some t =>
    if containsSub t (str "Weapon") || containsSub t (str "Projectile")
    then
      (determine_contact g rec1 ref1 (str "impacted")).bind fun imp =>
      match imp with
      | some c =>
        let rec2 :=
          { rec1 with impacted := c.id, impacted_dist := some c.prox }
        let ref2 := { ref with obj_store := storeSet store1 rid rec2 }
        let db2 :=
          { db with impacts := db.impacts ++
              [⟨rec2.session_id, rec2.parent, rec2.impacted, rec2.id,
                ref.time_offset, rec2.impacted_dist⟩] }
        .ok (ref2, db2, some rec2)
      | none => .ok (ref1, db, some rec1)
    else .ok (ref1, db, some rec1)

/-- The tail of the update/create path of `line_to_obj` (lines
348–416), for an already-determined starting record `rec0`: process the
`KEY=VAL` chunks, recompute velocity, store the record, and on a first
update of a should-have-parent record run parent resolution. -/
def proc_update_tail (g : Geo) (ref : Ref) (db : Db) (rec_id : Nat)
    (rec0 : ObjectRec) (chunks : List Str) :
    Except PyErr (Ref × Db × Option ObjectRec) :=
  (proc_chunks ref rec0 chunks).bind fun recK =>
  (compute_velocity g recK).bind fun recV =>
  let storeV := storeSet ref.obj_store rec_id recV
  let refV := { ref with obj_store := storeV }
  if recV.updates = 1 then
    recV.should_have_parent.bind fun shp =>
    if shp then
      (determine_contact g recV refV (str "parent")).bind fun pinfo =>
      match pinfo with
      | some c =>
        let recP := { recV with parent := c.id, parent_dist := some c.prox }
        .ok ({ ref with obj_store := storeSet storeV rec_id recP }, db,
             some recP)
      | none => .ok (refV, db, some recV)
    else .ok (refV, db, some recV)
  else .ok (refV, db, some recV)

/-- The update/create path of `line_to_obj` (lines 333–346 plus the
tail): look up or create the record, bumping `updates` and `last_seen`
for an existing one, then run the tail. -/
def proc_update_line (g : Geo) (ref : Ref) (db : Db) (rec_id : Nat)
    (chunks : List Str) : Except PyErr (Ref × Db × Option ObjectRec) :=
  let rec0 :=
    match storeGet ref.obj_store rec_id with
    | some rec =>
      { rec.update_last_seen ref.time_offset with updates := rec.updates + 1 }
    | none =>
      ObjectRec.new rec_id ref.time_offset ref.time_offset ref.session_id
  proc_update_tail g ref db rec_id rec0 chunks

/-- `line_to_obj` (lines 312–416).  Returns the updated reference state
and database plus the record handed back to the consumer (`none` for
header lines starting with `0`).  In the source all record mutations are
in place; here the final record is written back to the store at each
stage at which the source's aliasing makes it observable. -/
def line_to_obj (g : Geo) (raw_line : Str) (ref : Ref) (db : Db) :
    Except PyErr (Ref × Db × Option ObjectRec) :=
  if raw_line.take 1 = str "0" then .ok (ref, db, none)
  else if raw_line.take 1 = str "-" then
    match parseHex? (raw_line.drop 1) with
    | none => .error .valueError
    | some rid =>
      match storeGet ref.obj_store rid with
      | none => .error .keyError   -- `ref.obj_store[...]` with an unknown id
      | some rec => proc_removal g ref db rid rec
  else
    let parts := splitOnChar ',' raw_line
    -- `raw_line.find(b',')` is -1 exactly when the line has no comma;
    -- in that case the id is parsed from `raw_line[0:-1]` and the single
    -- chunk scanned is the whole line
    let hasComma := decide (2 ≤ parts.length)
    let idStr := if hasComma then parts.headD [] else raw_line.dropLast
    match parseHex? idStr with
    | none => .error .valueError
    | some rec_id => proc_update_line g ref db rec_id
        (if hasComma then parts.tail else [raw_line])

/-- `create_single` (lines 430–461): insert the new record's row
(`INSERT ... RETURNING id`), then set `obj.id` and `obj.written` on the
stored record.  The row's values are read before `id` is assigned;
`obj.can_be_parent()` is *called* here, so a record without a `Type`
raises. -/
def create_single (obj : ObjectRec) (db : Db) : Except PyErr (ObjectRec × Db) :=
  obj.can_be_parent.map fun _cbp =>
    let oid : Int := db.objects.length + 1
    ({ obj with id := some oid, written := true },
     { db with objects := db.objects ++ [obj] })

/-! ## `BinCopyWriter` (lines 523–661) -/

/-- `copy_header = struct.pack('>11sii', b'PGCOPY\n\377\r\n\0', 0, 0)`. -/
def copy_header : List PgTok := [.sig, .i32 0, .i32 0]

/-- `copy_trailer = struct.pack('>h', -1)`. -/
def copy_trailer : List PgTok := [.i16 (-1)]

/-- The writer state: the byte buffer (as tokens), the row count, and the
batch threshold. -/
structure BinCopyWriter where
  batch_size : Nat
  insert : List PgTok
  insert_count : Nat
  session_id : Option Nat
deriving DecidableEq, Repr

/-- `create_byte_buffer`: a fresh buffer holding only the COPY header. -/
def create_byte_buffer (w : BinCopyWriter) : BinCopyWriter :=
  { w with insert := copy_header, insert_count := 0 }

/-- `BinCopyWriter.__init__`. -/
def BinCopyWriter.init (batch_size : Nat) (session_id : Option Nat) :
    BinCopyWriter :=
  { batch_size := batch_size, insert := copy_header, insert_count := 0,
    session_id := session_id }

/-- The row `add_data` packs for one `ObjectRec` (lines 619–636): the
int16 field count 15, then for each field an int32 length and the value,
in the fixed order of the format string.  `struct.pack` raises if a
`None` reaches an `i`/`f` slot. -/
def pack_row (obj : ObjectRec) : Except PyErr (List PgTok) :=
  match obj.id, obj.session_id, obj.lat, obj.lon, obj.alt with
  | some oid, some sid, some la, some lo, some al =>
    .ok [.i16 15,
         .i32 4, .i32 oid,
         .i32 4, .i32 (sid : Int),
         .i32 4, .f32 obj.last_seen,
         .i32 1, .b8 obj.alive,
         .i32 4, .f32 la,
         .i32 4, .f32 lo,
         .i32 4, .f32 al,
         .i32 4, .f32 obj.roll,
         .i32 4, .f32 obj.pitch,
         .i32 4, .f32 obj.yaw,
         .i32 4, .f32 obj.u_coord,
         .i32 4, .f32 obj.v_coord,
         .i32 4, .f32 obj.heading,
         .i32 4, .f32 obj.velocity_kts,
         .i32 4, .i32 (obj.updates : Int)]
  | _, _, _, _, _ => .error .typeError

/-- `add_data`: pack one row and append it to the buffer. -/
def add_data (w : BinCopyWriter) (obj : ObjectRec) :
    Except PyErr BinCopyWriter :=
  (pack_row obj).map fun packed =>
    { w with insert := w.insert ++ packed, insert_count := w.insert_count + 1 }

/-- `insert_data` (lines 650–661): skip unless forced or the batch is
full; otherwise append the trailer, ship the buffer (returned as the
first component), and reset the buffer. -/
def insert_data (w : BinCopyWriter) (force : Bool) :
    Option (List PgTok) × BinCopyWriter :=
  if !force && w.insert_count < w.batch_size then (none, w)
  else (some (w.insert ++ copy_trailer), create_byte_buffer w)

/-! ## The consumer loop (lines 664–768) -/

/-- The whole modelled state: reference state, database, and writer. -/
structure World where
  ref : Ref
  db : Db
  writer : BinCopyWriter
deriving DecidableEq, Repr

/-- The state at the top of `consumer`. -/
def init_world (batch_size : Nat) : World :=
  { ref := {}, db := {}, writer := BinCopyWriter.init batch_size none }

/-- The body of the consumer loop for one frame (lines 684–721): while
`all_refs` is false every frame goes to `parse_ref_obj`; then `#` frames
advance time and maybe-flush the writer; all other frames go through
`line_to_obj`, `create_single` for unwritten records, and
`add_data`. -/
def consumer_step (g : Geo) (w : World) (line : Str) : Except PyErr World :=
  if !w.ref.all_refs then
    (parse_ref_obj w.ref w.db line).map fun (r', db') =>
      { w with ref := r', db := db' }
  else if line.take 1 = str "#" then
    (w.ref.update_time line).map fun r' =>
      let w1 := if !natTruthy w.writer.session_id then
          { w.writer with session_id := r'.session_id }
        else w.writer
      let (emitted, w2) := insert_data w1 false
      { ref := r',
        db := match emitted with
              | none => w.db
              | some buf => { w.db with copied := w.db.copied ++ [buf] },
        writer := w2 }
  else
    (line_to_obj g line w.ref w.db).bind fun (r', db', orec) =>
    match orec with
    | none => .ok { w with ref := r', db := db' }
    | some obj =>
      (if !obj.written then create_single obj db' else .ok (obj, db')).bind
        fun (obj', db'') =>
      -- `obj` aliases the stored record: `create_single`'s writes to
      -- `obj.id`/`obj.written` are visible in the store
      let r'' := { r' with obj_store := storeSet r'.obj_store obj'.tac_id obj' }
      (add_data w.writer obj').map fun wr' =>
        { ref := r'', db := db'', writer := wr' }

/-- `UPDATE session SET status = 'Error' WHERE session_id = $2`
(`sock.close(status='Error')`); with `session_id` `None` no row
matches. -/
def mark_session_error (db : Db) (sid : Option Nat) : Db :=
  match sid with
  | none => db
  | some i =>
    { db with sessions := db.sessions.map fun row =>
        if row.session_id = i then { row with status := str "Error" } else row }

/-- One frame through the consumer including its generic exception
handler (lines 762–768): any exception from the body marks the session
`Error` and re-raises (second component `some e`). -/
def consumer_catch (g : Geo) (w : World) (line : Str) : World × Option PyErr :=
  match consumer_step g w line with
  | .ok w' => (w', none)
  | .error e => ({ w with db := mark_session_error w.db w.ref.session_id }, some e)

/-- Run the consumer over a list of frames, stopping at the first
re-raised exception. -/
def consumer_run (g : Geo) (w : World) : List Str → World × Option PyErr
  | [] => (w, none)
  | l :: ls =>
    match consumer_catch g w l with
    | (w', none) => consumer_run g w' ls
    | (w', some e) => (w', some e)

/-! ## Concrete fixtures used in the claim evaluations -/

unseal Rat.add Rat.mul Rat.inv Rat.sub

/-- The spec's session-init scenario, with the boundary reference values
`0.0`, as frames fed to the consumer. -/
def c1_frames_zero : List Str :=
  [str "0,ReferenceLatitude=0.0", str "0,ReferenceLongitude=0.0",
   str "0,DataSource=Mission", str "0,Title=GoodMission",
   str "0,Author=Bob", str "0,RecordingTime=2019-01-01T12:12:01.101Z",
   str "#1.01"]

/-- The same header sequence with nonzero reference values. -/
def c1_frames_one : List Str :=
  [str "0,ReferenceLatitude=1.0", str "0,ReferenceLongitude=1.0",
   str "0,DataSource=Mission", str "0,Title=GoodMission",
   str "0,Author=Bob", str "0,RecordingTime=2019-01-01T12:12:01.101Z",
   str "#1.01"]

/-- A reference state in steady state (refs found, session bound),
with an empty object store. -/
def refSteady : Ref :=
  { lat := some 1, lon := some 1, time_offset := 10, all_refs := true,
    session_id := some 1 }

/-- A `Violet` subject (a flare-like record) for parent searches. -/
def subjViolet : ObjectRec :=
  { tac_id := 1, first_seen := 0, last_seen := 10, session_id := some 1,
    Color := some (str "Violet"), Type_ := some (str "Misc+Decoy+Flare"),
    cart_coords := some (0, 0, 0) }

/-- A `Grey` aircraft candidate at the subject's position. -/
def candGrey : ObjectRec :=
  { tac_id := 2, first_seen := 0, last_seen := 10, session_id := some 1,
    id := some 7, Color := some (str "Grey"),
    Type_ := some (str "Air+FixedWing"), cart_coords := some (0, 0, 0) }

/-- The same candidate, `Red`. -/
def candRed : ObjectRec :=
  { candGrey with
    Color := some (str "Red")
    id := some 8 }

/-- A `Red` *weapon* candidate at the subject's position. -/
def candWeapon : ObjectRec :=
  { candGrey with
    Color := some (str "Red")
    id := some 9
    Type_ := some (str "Weapon+Missile") }

/-- A live `Red` ground unit last seen 3 s before the subject
(stale by more than the 2.5 s lookback). -/
def candGroundStale : ObjectRec :=
  { candGrey with
    Color := some (str "Red")
    id := some 10
    Type_ := some (str "Ground+Heavy+Armor+Vehicle+Tank")
    last_seen := 7 }

/-- The same ground unit, seen at the subject's time. -/
def candGroundFresh : ObjectRec :=
  { candGroundStale with
    last_seen := 10 }

/-! ## C1 -/

/-- **C1** (code bug).  The claim says that once `ReferenceLatitude`,
`ReferenceLongitude` and `RecordingTime` are present — *including the
boundary values 0.0* — `parse_ref_obj` sets `all_refs` and inserts one
session row, and the subsequent `#1.01` tick sets `time_offset = 1.01`.
The code computes `all_refs` with Python truthiness
(`bool(self.lat and self.lon and self.start_time)`), so the boundary
value `0.0` counts as absent: after the spec's own session-init frames
with `ReferenceLatitude=0.0` and `ReferenceLongitude=0.0`, `all_refs` is
still false, no session row exists, `session_id` is unbound, and the
tick is swallowed by the header path leaving `time_offset = 0`.  The
second conjunct shows the same frames with nonzero references behave as
the claim describes (one session row, `start_time` truncated to whole
seconds and forced to UTC, `time_offset = 1.01`). -/
theorem c1_zero_reference_never_binds_session :
    ((consumer_run geoL1 (init_world 10000) c1_frames_zero).1.ref.all_refs = false
      ∧ (consumer_run geoL1 (init_world 10000) c1_frames_zero).1.ref.session_id = none
      ∧ (consumer_run geoL1 (init_world 10000) c1_frames_zero).1.db.sessions = []
      ∧ (consumer_run geoL1 (init_world 10000) c1_frames_zero).1.ref.time_offset = 0
      ∧ (consumer_run geoL1 (init_world 10000) c1_frames_zero).2 = none)
    ∧ ((consumer_run geoL1 (init_world 10000) c1_frames_one).1.ref.all_refs = true
      ∧ (consumer_run geoL1 (init_world 10000) c1_frames_one).1.ref.session_id = some 1
      ∧ ((consumer_run geoL1 (init_world 10000) c1_frames_one).1.db.sessions.map
          fun row => (row.session_id, row.start_time, row.status))
          = [(1, some ⟨2019, 1, 1, 12, 12, 1, 0, true⟩, str "In Progress")]
      ∧ (consumer_run geoL1 (init_world 10000) c1_frames_one).1.ref.time_offset
          = mkRat 101 100) := by
  decide

/-! ## C2 -/

/-- **C2**, counterexample.  The claim says a `Violet` subject accepts
candidate colors `{Red, Blue, Grey}`.  In the code the list is
`['Red', 'Blue']`: a `Grey` candidate that passes every other filter
(different `tac_id`, parent-capable type, fresh, zero distance) is not
considered — the search returns `None` — while the same candidate in
`Red` is returned. -/
theorem c2_grey_not_accepted_for_violet :
    candGrey.Color = some (str "Grey")
    ∧ candGrey.can_be_parent = .ok true
    ∧ candGrey.tac_id ≠ subjViolet.tac_id
    ∧ candGrey.last_seen = subjViolet.last_seen
    ∧ determine_contact geoL1 subjViolet
        { refSteady with obj_store := [(2, candGrey)] } (str "parent") = .ok none
    ∧ determine_contact geoL1 subjViolet
        { refSteady with obj_store := [(2, candRed)] } (str "parent")
        = .ok (some ⟨some 8, 0, none, none, some (str "Air+FixedWing")⟩) := by
  decide

/-- **C2**, amended.  In `determine_contact` with
`contact_type='parent'`: for a `Violet` subject the accepted candidate
colors are exactly `{Red, Blue}` (not `{Red, Blue, Grey}` as claimed);
for any other subject exactly the subject's own color.  Stated over a
single-candidate store: a candidate passing every other filter is
returned if and only if its color is in the accepted set. -/
theorem c2_violet_accepts_red_blue (g : Geo) (rec near : ObjectRec) (ref : Ref)
    (k : Nat) (rc nc : Coord)
    (hstore : ref.obj_store = [(k, near)])
    (hid : near.tac_id ≠ rec.tac_id)
    (hfresh : ¬ (rec.last_seen - 5/2 > near.last_seen))
    (hrc : rec.cart_coords = some rc)
    (hnc : near.cart_coords = some nc)
    (hprox : ¬ ((g.dist rc nc : ℚ) > 200)) :
    (determine_contact g rec ref (str "parent")
       = .ok (some ⟨near.id, g.dist rc nc, near.Name, near.Pilot, near.Type_⟩))
    ↔ (if rec.Color = some (str "Violet")
       then near.Color = some (str "Red") ∨ near.Color = some (str "Blue")
       else near.Color = rec.Color) := by
  have hbeq : (near.tac_id == rec.tac_id) = false := by
    simpa using hid
  by_cases hv : rec.Color = some (str "Violet")
  · by_cases hc : near.Color = some (str "Red") ∨ near.Color = some (str "Blue")
    · have hcon : ([some (str "Red"), some (str "Blue")].contains near.Color) = true := by
        rcases hc with h | h <;> simp [h]
      simp +decide [determine_contact, hv, contact_scan, hstore, method_truthy, hbeq,
            hcon, Except.bind, hfresh, hrc, hnc, hprox, hc]
    · have hcon : ([some (str "Red"), some (str "Blue")].contains near.Color) = false := by
        push_neg at hc
        simp [hc.1, hc.2]
      simp +decide [determine_contact, hv, contact_scan, hstore, method_truthy, hbeq,
            hcon, Except.bind, hc]
  · by_cases hc : near.Color = rec.Color
    · have hcon : ([rec.Color].contains near.Color) = true := by simp [hc]
      simp +decide [determine_contact, hv, contact_scan, hstore, method_truthy, hbeq,
            hcon, Except.bind, hfresh, hrc, hnc, hprox, hc]
    · have hcon : ([rec.Color].contains near.Color) = false := by simp [hc]
      simp +decide [determine_contact, hv, contact_scan, hstore, method_truthy, hbeq,
            hcon, Except.bind, hc]

/-- Witness for `c2_violet_accepts_red_blue` at the concrete fixture:
a `Violet` subject with a single fresh `Red` candidate at distance 0. -/
theorem c2_violet_accepts_red_blue_witness :
    (determine_contact geoL1 subjViolet
        { refSteady with obj_store := [(2, candRed)] } (str "parent")
       = .ok (some ⟨candRed.id, geoL1.dist (0, 0, 0) (0, 0, 0), candRed.Name,
                    candRed.Pilot, candRed.Type_⟩))
    ↔ (if subjViolet.Color = some (str "Violet")
       then candRed.Color = some (str "Red") ∨ candRed.Color = some (str "Blue")
       else candRed.Color = subjViolet.Color) :=
  c2_violet_accepts_red_blue geoL1 subjViolet candRed
    { refSteady with obj_store := [(2, candRed)] } 2 (0, 0, 0) (0, 0, 0)
    rfl (by decide) (by decide) (by decide) (by decide) (by decide)

/-! ## C3 -/

/-- **C3** (code bug).  The claim says candidates whose `can_be_parent`
predicate is false — e.g. weapons — are excluded from the parent search.
The source tests `not near.can_be_parent` *without calling the method*;
a bound method is always truthy, so the test never fires and the
type-based filter is a no-op.  Concretely: a `Red` weapon candidate,
for which the `can_be_parent` method returns false, is selected as the
parent of a `Violet` flare-like subject. -/
theorem c3_weapon_selected_as_parent :
    candWeapon.can_be_parent = .ok false
    ∧ determine_contact geoL1 subjViolet
        { refSteady with obj_store := [(2, candWeapon)] } (str "parent")
        = .ok (some ⟨some 9, 0, none, none, some (str "Weapon+Missile")⟩) := by
  decide

/-! ## C6 -/

/-- **C6** (code bug).  The claim says a stale candidate is kept when it
is a live ground unit.  The source tests `'Ground' in near.Type.lower()`:
the needle keeps its capital `G` while the haystack is lowercased, so
the membership test is never true and the ground-unit exemption is dead
code — every stale candidate is rejected.  Concretely: a live
`Ground+Heavy+Armor+Vehicle+Tank` candidate 3 s stale is rejected
(result `None`), although the same candidate fresh is selected; and the
`'Ground'`-in-lowercase test evaluates to false on this very type
string (while the lowercase needle would match). -/
theorem c6_stale_live_ground_unit_rejected :
    containsSub (pyLower (str "Ground+Heavy+Armor+Vehicle+Tank")) (str "Ground")
      = false
    ∧ containsSub (pyLower (str "Ground+Heavy+Armor+Vehicle+Tank")) (str "ground")
      = true
    ∧ candGroundStale.alive = true
    ∧ candGroundStale.last_seen < subjViolet.last_seen - mkRat 5 2
    ∧ determine_contact geoL1 subjViolet
        { refSteady with obj_store := [(2, candGroundStale)] } (str "parent")
        = .ok none
    ∧ determine_contact geoL1 subjViolet
        { refSteady with obj_store := [(2, candGroundFresh)] } (str "parent")
        = .ok (some ⟨some 10, 0, none, none,
                     some (str "Ground+Heavy+Armor+Vehicle+Tank")⟩) := by
  decide

/-! ## C8 -/

/-- The state after `update_time('#1.0')` from a fresh `Ref`. -/
def refTickOne : Ref :=
  { time_offset := 1, time_since_last := 1 }

/-- The state after a further `update_time('#0.5')`. -/
def refTickHalf : Ref :=
  { time_offset := mkRat 1 2, time_since_last := mkRat (-1) 2 }

/-- **C8**, counterexample.  The claim asserts that across any run the
sequence of `time_offset` values is monotonically non-decreasing.
Nothing in `update_time` enforces this: feeding the tick `#1.0` and then
`#0.5` makes `time_offset` go from `1` down to `0.5`. -/
theorem c8_time_offset_can_decrease :
    ({} : Ref).update_time (str "#1.0") = .ok refTickOne
    ∧ refTickOne.update_time (str "#0.5") = .ok refTickHalf
    ∧ refTickHalf.time_offset < refTickOne.time_offset := by
  decide

/-- **C8**, amended.  For every tick frame `#t`, `update_time` sets
`time_since_last` to `t` minus the previous `time_offset` and replaces
`time_offset` with `t`; consequently `time_offset` is non-decreasing
*provided* the tick values themselves are non-decreasing (each tick is at
least the current offset) — unconditional monotonicity does not hold
(see the counterexample). -/
theorem c8_update_time_spec (r : Ref) (s : Str) (q : ℚ) (r' : Ref)
    (h : pyFloat? (s.drop 1) = some q)
    (hr : r.update_time s = .ok r') :
    r' = { r with time_since_last := q - r.time_offset, time_offset := q }
    ∧ (r.time_offset ≤ q → r.time_offset ≤ r'.time_offset) := by
  simp only [Ref.update_time, h] at hr
  cases hr
  exact ⟨rfl, fun hle => hle⟩

/-- Witness for `c8_update_time_spec`: the tick `#1.01` from a fresh
reference state. -/
theorem c8_update_time_spec_witness :
    ({ time_offset := mkRat 101 100, time_since_last := mkRat 101 100 } : Ref)
      = { ({} : Ref) with
          time_since_last := mkRat 101 100 - ({} : Ref).time_offset,
          time_offset := mkRat 101 100 }
    ∧ (({} : Ref).time_offset ≤ mkRat 101 100 →
       ({} : Ref).time_offset ≤
         ({ time_offset := mkRat 101 100, time_since_last := mkRat 101 100 } : Ref).time_offset) :=
  c8_update_time_spec {} (str "#1.01") (mkRat 101 100)
    { time_offset := mkRat 101 100, time_since_last := mkRat 101 100 }
    (by decide) (by decide)

/-! ## C9 -/

/-- **C9** (confirmed).  `add_data` appends to the COPY buffer exactly
one row: the big-endian int16 field count `15` followed, in the fixed
order `(id, session_id, last_seen, alive, lat, lon, alt, roll, pitch,
yaw, u_coord, v_coord, heading, velocity_kts, updates)`, by an int32
byte length and the value — 4-byte ints for `id`, `session_id`,
`updates`, 4-byte floats for the eleven real-valued fields, a 1-byte
bool for `alive` — and bumps the row count; the buffer resets to the
11-byte `PGCOPY` signature plus two 32-bit zero words; a flush (forced,
or unforced with a full batch) emits the buffer with the int16 `-1`
trailer appended and resets the buffer.  The `tokSize` conjuncts pin
the byte widths of the tokens. -/
theorem c9_copy_row_layout (w : BinCopyWriter) (obj : ObjectRec)
    (oid : Int) (sid : Nat) (la lo al : ℚ)
    (hid : obj.id = some oid) (hsid : obj.session_id = some sid)
    (hla : obj.lat = some la) (hlo : obj.lon = some lo)
    (hal : obj.alt = some al) :
    add_data w obj = .ok { w with
      insert := w.insert ++
        [.i16 15,
         .i32 4, .i32 oid,
         .i32 4, .i32 (sid : Int),
         .i32 4, .f32 obj.last_seen,
         .i32 1, .b8 obj.alive,
         .i32 4, .f32 la,
         .i32 4, .f32 lo,
         .i32 4, .f32 al,
         .i32 4, .f32 obj.roll,
         .i32 4, .f32 obj.pitch,
         .i32 4, .f32 obj.yaw,
         .i32 4, .f32 obj.u_coord,
         .i32 4, .f32 obj.v_coord,
         .i32 4, .f32 obj.heading,
         .i32 4, .f32 obj.velocity_kts,
         .i32 4, .i32 (obj.updates : Int)],
      insert_count := w.insert_count + 1 }
    ∧ (create_byte_buffer w).insert = [.sig, .i32 0, .i32 0]
    ∧ insert_data w true = (some (w.insert ++ [.i16 (-1)]), create_byte_buffer w)
    ∧ (w.batch_size ≤ w.insert_count →
        insert_data w false = (some (w.insert ++ [.i16 (-1)]), create_byte_buffer w))
    ∧ tokSize .sig = 11 ∧ tokSize (.i16 15) = 2 ∧ tokSize (.i32 oid) = 4
    ∧ tokSize (.f32 obj.last_seen) = 4 ∧ tokSize (.b8 obj.alive) = 1 := by
  refine ⟨?_, rfl, ?_, ?_, rfl, rfl, rfl, rfl, rfl⟩
  · simp [add_data, pack_row, hid, hsid, hla, hlo, hal, Except.map]
  · simp [insert_data, copy_trailer]
  · intro hfull
    simp [insert_data, copy_trailer, Nat.not_lt.mpr hfull]

/-- A concrete record with every packed field bound. -/
def objPacked : ObjectRec :=
  { tac_id := 9, first_seen := 0, last_seen := 20, session_id := some 1,
    id := some 5, lat := some 3, lon := some 4, alt := some 2, updates := 7 }

/-- Witness for `c9_copy_row_layout` at a concrete writer and record. -/
theorem c9_copy_row_layout_witness :
    add_data (BinCopyWriter.init 1000 (some 1)) objPacked
      = .ok { BinCopyWriter.init 1000 (some 1) with
        insert := (BinCopyWriter.init 1000 (some 1)).insert ++
          [.i16 15,
           .i32 4, .i32 5,
           .i32 4, .i32 ((1 : Nat) : Int),
           .i32 4, .f32 objPacked.last_seen,
           .i32 1, .b8 objPacked.alive,
           .i32 4, .f32 3,
           .i32 4, .f32 4,
           .i32 4, .f32 2,
           .i32 4, .f32 objPacked.roll,
           .i32 4, .f32 objPacked.pitch,
           .i32 4, .f32 objPacked.yaw,
           .i32 4, .f32 objPacked.u_coord,
           .i32 4, .f32 objPacked.v_coord,
           .i32 4, .f32 objPacked.heading,
           .i32 4, .f32 objPacked.velocity_kts,
           .i32 4, .i32 (objPacked.updates : Int)],
        insert_count := (BinCopyWriter.init 1000 (some 1)).insert_count + 1 }
    ∧ (create_byte_buffer (BinCopyWriter.init 1000 (some 1))).insert
        = [.sig, .i32 0, .i32 0]
    ∧ insert_data (BinCopyWriter.init 1000 (some 1)) true
        = (some ((BinCopyWriter.init 1000 (some 1)).insert ++ [.i16 (-1)]),
           create_byte_buffer (BinCopyWriter.init 1000 (some 1)))
    ∧ ((BinCopyWriter.init 1000 (some 1)).batch_size
         ≤ (BinCopyWriter.init 1000 (some 1)).insert_count →
        insert_data (BinCopyWriter.init 1000 (some 1)) false
          = (some ((BinCopyWriter.init 1000 (some 1)).insert ++ [.i16 (-1)]),
             create_byte_buffer (BinCopyWriter.init 1000 (some 1))))
    ∧ tokSize .sig = 11 ∧ tokSize (.i16 15) = 2 ∧ tokSize (.i32 5) = 4
    ∧ tokSize (.f32 objPacked.last_seen) = 4
    ∧ tokSize (.b8 objPacked.alive) = 1 :=
  c9_copy_row_layout (BinCopyWriter.init 1000 (some 1)) objPacked
    5 1 3 4 2 rfl rfl rfl rfl rfl

/-! ## C10 -/

/-- **C10** (confirmed).  A removal frame `-<hex-id>` whose id is not in
the object store makes `line_to_obj` raise `KeyError`
(`ref.obj_store[...]` on line 320, outside any handler); the error
propagates out of `consumer_step`, the consumer's generic handler marks
the session `Error` and re-raises, and the run terminates with no
further frame processed. -/
theorem c10_unknown_removal_raises (g : Geo) (w : World) (s : Str)
    (rid : Nat) (rest : List Str)
    (hrefs : w.ref.all_refs = true)
    (hhex : parseHex? s = some rid)
    (hmiss : storeGet w.ref.obj_store rid = none) :
    line_to_obj g ('-' :: s) w.ref w.db = .error .keyError
    ∧ consumer_step g w ('-' :: s) = .error .keyError
    ∧ consumer_catch g w ('-' :: s)
        = ({ w with db := mark_session_error w.db w.ref.session_id },
           some .keyError)
    ∧ consumer_run g w (('-' :: s) :: rest)
        = ({ w with db := mark_session_error w.db w.ref.session_id },
           some .keyError) := by
  have h1 : line_to_obj g ('-' :: s) w.ref w.db = .error .keyError := by
    simp +decide [line_to_obj, hhex, hmiss]
  have h2 : consumer_step g w ('-' :: s) = .error .keyError := by
    simp +decide [consumer_step, hrefs, h1, Except.bind]
  refine ⟨h1, h2, ?_, ?_⟩
  · simp [consumer_catch, h2]
  · simp [consumer_run, consumer_catch, h2]

/-- A session row as inserted by `parse_ref_obj` for session 1. -/
def sessionRowOne : SessionRow :=
  ⟨1, some 1, some 1, none, none, none, none, none, [], str "In Progress"⟩

/-- A steady-state world: refs found, session 1 bound, store holding
only `candRed` under key 2. -/
def worldSteady : World :=
  { ref := { refSteady with obj_store := [(2, candRed)] },
    db := { sessions := [sessionRowOne] },
    writer := BinCopyWriter.init 1000 (some 1) }

/-- Witness for `c10_unknown_removal_raises`: removing the unknown id
`0xff` in `worldSteady`. -/
theorem c10_unknown_removal_raises_witness :
    line_to_obj geoL1 ('-' :: str "ff") worldSteady.ref worldSteady.db
      = .error .keyError
    ∧ consumer_step geoL1 worldSteady ('-' :: str "ff") = .error .keyError
    ∧ consumer_catch geoL1 worldSteady ('-' :: str "ff")
        = ({ worldSteady with
             db := mark_session_error worldSteady.db worldSteady.ref.session_id },
           some .keyError)
    ∧ consumer_run geoL1 worldSteady (('-' :: str "ff") :: [str "#9.0"])
        = ({ worldSteady with
             db := mark_session_error worldSteady.db worldSteady.ref.session_id },
           some .keyError) :=
  c10_unknown_removal_raises geoL1 worldSteady (str "ff") 255 [str "#9.0"]
    (by decide) (by decide) (by decide)

/-! ## C4 -/

/-- **C4** (confirmed).  The `T=` coordinate tuple with N pipe
separators assigns fields in order — N=2: `(lon, lat, alt)`; N=4:
`(lon, lat, alt, u_coord, v_coord)`; N=5: `(lon, lat, alt, roll, pitch,
yaw)`; N=8: `(lon, lat, alt, roll, pitch, yaw, u_coord, v_coord,
heading)` — with `lat`/`lon` stored as the parsed value plus the session
origin and all other fields absolute (conjuncts 1–4, stated for
nonempty slots); an empty slot skips its field, retaining the previous
value, at any position of the walk (conjunct 5); any other pipe count
raises `ValueError` (conjunct 6), which is surfaced to the consumer
loop: the generic handler marks the session `Error` and re-raises
(conjunct 7, at a concrete frame with N=3). -/
theorem c4_coord_tuple_layout :
    (∀ (ref : Ref) (r : ObjectRec) (rlat rlon : ℚ) (val s0 s1 s2 : Str)
       (q0 q1 q2 : ℚ),
      ref.lat = some rlat → ref.lon = some rlon →
      pyCount val '|' = 2 → splitOnChar '|' val = [s0, s1, s2] →
      s0 ≠ [] → s1 ≠ [] → s2 ≠ [] →
      pyFloat? s0 = some q0 → pyFloat? s1 = some q1 → pyFloat? s2 = some q2 →
      parse_T ref r val
        = .ok { r with lon := some (q0 + rlon), lat := some (q1 + rlat),
                       alt := some q2 })
    ∧ (∀ (ref : Ref) (r : ObjectRec) (rlat rlon : ℚ)
         (val s0 s1 s2 s3 s4 : Str) (q0 q1 q2 q3 q4 : ℚ),
      ref.lat = some rlat → ref.lon = some rlon →
      pyCount val '|' = 4 → splitOnChar '|' val = [s0, s1, s2, s3, s4] →
      s0 ≠ [] → s1 ≠ [] → s2 ≠ [] → s3 ≠ [] → s4 ≠ [] →
      pyFloat? s0 = some q0 → pyFloat? s1 = some q1 → pyFloat? s2 = some q2 →
      pyFloat? s3 = some q3 → pyFloat? s4 = some q4 →
      parse_T ref r val
        = .ok { r with lon := some (q0 + rlon), lat := some (q1 + rlat),
                       alt := some q2, u_coord := q3, v_coord := q4 })
    ∧ (∀ (ref : Ref) (r : ObjectRec) (rlat rlon : ℚ)
         (val s0 s1 s2 s3 s4 s5 : Str) (q0 q1 q2 q3 q4 q5 : ℚ),
      ref.lat = some rlat → ref.lon = some rlon →
      pyCount val '|' = 5 → splitOnChar '|' val = [s0, s1, s2, s3, s4, s5] →
      s0 ≠ [] → s1 ≠ [] → s2 ≠ [] → s3 ≠ [] → s4 ≠ [] → s5 ≠ [] →
      pyFloat? s0 = some q0 → pyFloat? s1 = some q1 → pyFloat? s2 = some q2 →
      pyFloat? s3 = some q3 → pyFloat? s4 = some q4 → pyFloat? s5 = some q5 →
      parse_T ref r val
        = .ok { r with lon := some (q0 + rlon), lat := some (q1 + rlat),
                       alt := some q2, roll := q3, pitch := q4, yaw := q5 })
    ∧ (∀ (ref : Ref) (r : ObjectRec) (rlat rlon : ℚ)
         (val s0 s1 s2 s3 s4 s5 s6 s7 s8 : Str)
         (q0 q1 q2 q3 q4 q5 q6 q7 q8 : ℚ),
      ref.lat = some rlat → ref.lon = some rlon →
      pyCount val '|' = 8 →
      splitOnChar '|' val = [s0, s1, s2, s3, s4, s5, s6, s7, s8] →
      s0 ≠ [] → s1 ≠ [] → s2 ≠ [] → s3 ≠ [] → s4 ≠ [] → s5 ≠ [] →
      s6 ≠ [] → s7 ≠ [] → s8 ≠ [] →
      pyFloat? s0 = some q0 → pyFloat? s1 = some q1 → pyFloat? s2 = some q2 →
      pyFloat? s3 = some q3 → pyFloat? s4 = some q4 → pyFloat? s5 = some q5 →
      pyFloat? s6 = some q6 → pyFloat? s7 = some q7 → pyFloat? s8 = some q8 →
      parse_T ref r val
        = .ok { r with lon := some (q0 + rlon), lat := some (q1 + rlat),
                       alt := some q2, roll := q3, pitch := q4, yaw := q5,
                       u_coord := q6, v_coord := q7, heading := q8 })
    ∧ (∀ (ref : Ref) (r : ObjectRec) (k : CoordKey) (ks : List CoordKey)
         (ss : List Str),
        apply_coords ref r (k :: ks) ([] :: ss) = apply_coords ref r ks ss)
    ∧ (∀ (ref : Ref) (r : ObjectRec) (val : Str),
        pyCount val '|' ≠ 2 → pyCount val '|' ≠ 4 → pyCount val '|' ≠ 5 →
        pyCount val '|' ≠ 8 → parse_T ref r val = .error .valueError)
    ∧ consumer_catch geoL1 worldSteady (str "3c,T=1|2|3|4")
        = ({ worldSteady with
             db := mark_session_error worldSteady.db worldSteady.ref.session_id },
           some .valueError) := by
  refine ⟨?_, ?_, ?_, ?_, ?_, ?_, by decide⟩
  · intro ref r rlat rlon val s0 s1 s2 q0 q1 q2 hlat hlon hcount hsplit
      h0 h1 h2 hf0 hf1 hf2
    simp [parse_T, hcount, hsplit, COORD_KEYS_X_SHORT, apply_coords,
          h0, h1, h2, hf0, hf1, hf2, set_coord, hlat, hlon, Except.bind]
  · intro ref r rlat rlon val s0 s1 s2 s3 s4 q0 q1 q2 q3 q4 hlat hlon
      hcount hsplit h0 h1 h2 h3 h4 hf0 hf1 hf2 hf3 hf4
    simp [parse_T, hcount, hsplit, COORD_KEYS_SHORT, apply_coords,
          h0, h1, h2, h3, h4, hf0, hf1, hf2, hf3, hf4, set_coord,
          hlat, hlon, Except.bind]
  · intro ref r rlat rlon val s0 s1 s2 s3 s4 s5 q0 q1 q2 q3 q4 q5 hlat hlon
      hcount hsplit h0 h1 h2 h3 h4 h5 hf0 hf1 hf2 hf3 hf4 hf5
    simp [parse_T, hcount, hsplit, COORD_KEYS_MED, apply_coords,
          h0, h1, h2, h3, h4, h5, hf0, hf1, hf2, hf3, hf4, hf5, set_coord,
          hlat, hlon, Except.bind]
  · intro ref r rlat rlon val s0 s1 s2 s3 s4 s5 s6 s7 s8
      q0 q1 q2 q3 q4 q5 q6 q7 q8 hlat hlon hcount hsplit
      h0 h1 h2 h3 h4 h5 h6 h7 h8 hf0 hf1 hf2 hf3 hf4 hf5 hf6 hf7 hf8
    simp [parse_T, hcount, hsplit, COORD_KEYS, apply_coords,
          h0, h1, h2, h3, h4, h5, h6, h7, h8,
          hf0, hf1, hf2, hf3, hf4, hf5, hf6, hf7, hf8, set_coord,
          hlat, hlon, Except.bind]
  · intro ref r k ks ss
    simp [apply_coords]
  · intro ref r val h2 h4 h5 h8
    simp [parse_T, h2, h4, h5, h8]

/-- Witness for `c4_coord_tuple_layout`: the N=4 conjunct applied to
the tuple `6640.74|4.85|1.5|-57047.37|76446.19` over `refSteady`
(origin `(1, 1)`), together with the bad-count conjunct applied to a
3-pipe tuple. -/
theorem c4_coord_tuple_layout_witness :
    parse_T refSteady (ObjectRec.new 60 10 10 (some 1))
        (str "6640.74|4.85|1.5|-57047.37|76446.19")
      = .ok { ObjectRec.new 60 10 10 (some 1) with
              lon := some (mkRat 664074 100 + 1),
              lat := some (mkRat 485 100 + 1),
              alt := some (mkRat 15 10),
              u_coord := mkRat (-5704737) 100,
              v_coord := mkRat 7644619 100 }
    ∧ parse_T refSteady (ObjectRec.new 60 10 10 (some 1)) (str "1|2|3|4")
      = .error .valueError :=
  ⟨c4_coord_tuple_layout.2.1 refSteady (ObjectRec.new 60 10 10 (some 1))
      1 1 (str "6640.74|4.85|1.5|-57047.37|76446.19")
      (str "6640.74") (str "4.85") (str "1.5") (str "-57047.37") (str "76446.19")
      (mkRat 664074 100) (mkRat 485 100) (mkRat 15 10) (mkRat (-5704737) 100)
      (mkRat 7644619 100)
      rfl rfl (by decide) (by decide) (by decide) (by decide) (by decide)
      (by decide) (by decide) (by decide) (by decide) (by decide)
      (by decide) (by decide),
   c4_coord_tuple_layout.2.2.2.2.2.1 refSteady
      (ObjectRec.new 60 10 10 (some 1)) (str "1|2|3|4")
      (by decide) (by decide) (by decide) (by decide)⟩

/-! ## C5 -/

/-- **C5** (confirmed).  For a removal frame `-<hex-id>` with the id in
the store: the record's `alive` is set false and `updates` is
incremented by exactly 1 (the shape of `rec1` in the hypotheses); when
the record's Type contains neither `Weapon` nor `Projectile` the result
is independent of impact resolution and no Impact row is emitted
(conjunct a); when it does, impact resolution runs against the updated
store and an Impact row is emitted if and only if it returns a target,
in which case `impacted` and `impacted_dist` are set on the record
(conjuncts b and c). -/
theorem c5_removal_semantics (g : Geo) (ref : Ref) (db : Db) (s : Str)
    (rid : Nat) (rec : ObjectRec) (t : Str) (rec1 : ObjectRec) (ref1 : Ref)
    (hhex : parseHex? s = some rid)
    (hget : storeGet ref.obj_store rid = some rec)
    (htype : rec.Type_ = some t)
    (hrec1 : rec1 = { rec with alive := false, updates := rec.updates + 1 })
    (href1 : ref1 = { ref with obj_store := storeSet ref.obj_store rid rec1 }) :
    (containsSub t (str "Weapon") = false →
     containsSub t (str "Projectile") = false →
      line_to_obj g ('-' :: s) ref db = .ok (ref1, db, some rec1))
    ∧ ((containsSub t (str "Weapon") || containsSub t (str "Projectile")) = true →
       determine_contact g rec1 ref1 (str "impacted") = .ok none →
       line_to_obj g ('-' :: s) ref db = .ok (ref1, db, some rec1))
    ∧ (∀ c : Contact,
       (containsSub t (str "Weapon") || containsSub t (str "Projectile")) = true →
       determine_contact g rec1 ref1 (str "impacted") = .ok (some c) →
       line_to_obj g ('-' :: s) ref db
         = .ok ({ ref with
                    obj_store :=
                      storeSet (storeSet ref.obj_store rid rec1) rid
                        ({ rec1 with impacted := c.id,
                                     impacted_dist := some c.prox }) },
                { db with impacts := db.impacts ++
                    [⟨rec1.session_id, rec1.parent, c.id, rec1.id,
                      ref.time_offset, some c.prox⟩] },
                some ({ rec1 with impacted := c.id,
                                  impacted_dist := some c.prox }))) := by
  subst hrec1 href1
  refine ⟨?_, ?_, ?_⟩
  · intro hW hP
    simp +decide [line_to_obj, proc_removal, hhex, hget, htype, hW, hP,
                  Except.bind]
  · intro hWP hdet
    rw [htype] at hdet
    simp +decide [line_to_obj, proc_removal, hhex, hget, htype, hWP, hdet,
                  Except.bind]
  · intro c hWP hdet
    rw [htype] at hdet
    simp +decide [line_to_obj, proc_removal, hhex, hget, htype, hWP, hdet,
                  Except.bind]

/-- A live `Blue` weapon (with a resolved parent) stored under key 2. -/
def weaponRec : ObjectRec :=
  { tac_id := 2, first_seen := 0, last_seen := 20, session_id := some 1,
    id := some 5, parent := some 4, Color := some (str "Blue"),
    Type_ := some (str "Weapon+Missile"), cart_coords := some (0, 0, 0),
    updates := 3 }

/-- A `Red` `Air+` target at the weapon's position, stored under key 3. -/
def airCand : ObjectRec :=
  { tac_id := 3, first_seen := 0, last_seen := 20, session_id := some 1,
    id := some 6, Color := some (str "Red"),
    Type_ := some (str "Air+FixedWing"), cart_coords := some (0, 0, 0) }

/-- Reference state holding the weapon and its nearby target. -/
def refImpact : Ref :=
  { refSteady with
    obj_store := [(2, weaponRec), (3, airCand)]
    time_offset := 20 }

/-- The weapon after its removal frame. -/
def weaponDead : ObjectRec :=
  { weaponRec with alive := false, updates := weaponRec.updates + 1 }

/-- The contact resolved for the dying weapon (the `Air+` target at
distance 0). -/
def contactAir : Contact :=
  ⟨some 6, 0, none, none, some (str "Air+FixedWing")⟩

/-- The weapon with its impact fields set. -/
def weaponImpacted : ObjectRec :=
  { weaponDead with impacted := contactAir.id,
                    impacted_dist := some contactAir.prox }

/-- The reference state after the removal was applied to the store. -/
def refImpactDead : Ref :=
  { refImpact with obj_store := storeSet refImpact.obj_store 2 weaponDead }

/-- Witness for `c5_removal_semantics`: removing the weapon (frame
`-2`) resolves the nearby `Air+` target and emits exactly one Impact
row with `killer` = the weapon's parent, `target` = the target's id and
`weapon` = the weapon's own id. -/
theorem c5_removal_semantics_witness :
    line_to_obj geoL1 ('-' :: str "2") refImpact {}
      = .ok ({ refImpact with
                 obj_store :=
                   storeSet (storeSet refImpact.obj_store 2 weaponDead) 2
                     weaponImpacted },
             { impacts :=
                 [⟨weaponDead.session_id, weaponDead.parent, contactAir.id,
                   weaponDead.id, refImpact.time_offset,
                   some contactAir.prox⟩] },
             some weaponImpacted) :=
  (c5_removal_semantics geoL1 refImpact {} (str "2") 2 weaponRec
      (str "Weapon+Missile") weaponDead refImpactDead
      (by decide) (by decide) (by decide) rfl rfl).2.2
    contactAir (by decide) (by decide)

/-! ## C7: store lemmas and `updates`-preservation of the update pipeline -/

theorem storeGet_nil (k : Nat) : storeGet [] k = none := rfl

theorem storeGet_cons (k0 : Nat) (v0 : ObjectRec) (rest : Store) (k' : Nat) :
    storeGet ((k0, v0) :: rest) k'
      = if k0 = k' then some v0 else storeGet rest k' := by
  by_cases h : k0 = k'
  · simp [storeGet, List.find?, h]
  · have hb : (k0 == k') = false := by simpa using h
    simp [storeGet, List.find?, hb, h]

/-- Update-in-place of the association list behaves like a map write. -/
theorem storeGet_storeSet (st : Store) (k k' : Nat) (v : ObjectRec) :
    storeGet (storeSet st k v) k' = if k' = k then some v else storeGet st k' := by
  induction st with
  | nil =>
    show storeGet [(k, v)] k' = _
    rw [storeGet_cons, storeGet_nil]
    by_cases h : k' = k
    · simp [h]
    · simp [h, Ne.symm h]
  | cons p rest ih =>
    obtain ⟨k0, v0⟩ := p
    simp only [storeSet]
    by_cases h0 : k0 = k
    · rw [if_pos h0]
      subst h0
      rw [storeGet_cons, storeGet_cons]
      by_cases h : k0 = k'
      · simp [h]
      · simp [h, Ne.symm h]
    · rw [if_neg h0]
      rw [storeGet_cons, ih, storeGet_cons]
      by_cases h : k0 = k'
      · subst h
        simp [h0]
      · simp [h]

/-- `set_coord` only writes coordinate fields: `updates` is untouched. -/
theorem set_coord_updates (ref : Ref) (r : ObjectRec) (k : CoordKey) (q : ℚ)
    (r' : ObjectRec) (h : set_coord ref r k q = .ok r') :
    r'.updates = r.updates := by
  cases k <;> simp [set_coord] at h <;>
    first
    | (cases h; rfl)
    | (split at h <;> (try cases h) <;> simp_all)

/-- The coordinate-slot walk never touches `updates`. -/
theorem apply_coords_updates (ref : Ref) :
    ∀ (ss : List Str) (ks : List CoordKey) (r r' : ObjectRec),
      apply_coords ref r ks ss = .ok r' → r'.updates = r.updates := by
  intro ss
  induction ss with
  | nil =>
    intro ks r r' h
    cases ks <;> simp [apply_coords] at h <;> simp [h]
  | cons s ss ih =>
    intro ks r r' h
    cases ks with
    | nil =>
      simp [apply_coords] at h
      simp [h]
    | cons k ks =>
      by_cases hs : s = []
      · subst hs
        simp only [apply_coords, if_pos rfl] at h
        exact ih ks r r' h
      · simp only [apply_coords, if_neg hs] at h
        rcases hpf : pyFloat? s with _ | q <;> rw [hpf] at h <;> dsimp only at h
        · cases h
        · rcases hsc : set_coord ref r k q with e | r1 <;> rw [hsc] at h <;>
            simp only [Except.bind] at h
          · cases h
          · rw [ih ks r1 r' h, set_coord_updates ref r k q r1 hsc]

/-- `update_val` on a descriptive key never touches `updates`. -/
theorem update_val_str_updates (r : ObjectRec) (key v : Str) (r' : ObjectRec)
    (h : update_val_str r key v = .ok r') : r'.updates = r.updates := by
  unfold update_val_str at h
  repeat' split at h
  all_goals first | (cases h; rfl) | cases h

/-- `parse_T` never touches `updates`. -/
theorem parse_T_updates (ref : Ref) (r : ObjectRec) (val : Str)
    (r' : ObjectRec) (h : parse_T ref r val = .ok r') :
    r'.updates = r.updates := by
  unfold parse_T at h
  by_cases h8 : pyCount val '|' = 8 <;> by_cases h5 : pyCount val '|' = 5 <;>
    by_cases h4 : pyCount val '|' = 4 <;> by_cases h2 : pyCount val '|' = 2 <;>
    simp only [h8, h5, h4, h2, if_true, if_false, reduceIte] at h <;>
    first
      | exact apply_coords_updates ref _ _ r r' h
      | cases h

/-- One `KEY=VAL` chunk never touches `updates`. -/
theorem proc_chunk_updates (ref : Ref) (r : ObjectRec) (chunk : Str)
    (r' : ObjectRec) (h : proc_chunk ref r chunk = .ok r') :
    r'.updates = r.updates := by
  unfold proc_chunk at h
  repeat' split at h
  all_goals first
    | exact parse_T_updates ref r _ r' h
    | exact update_val_str_updates r _ _ r' h

/-- The chunk loop never touches `updates`. -/
theorem proc_chunks_updates (ref : Ref) :
    ∀ (cs : List Str) (r r' : ObjectRec),
      proc_chunks ref r cs = .ok r' → r'.updates = r.updates := by
  intro cs
  induction cs with
  | nil =>
    intro r r' h
    simp [proc_chunks] at h
    simp [h]
  | cons c cs ih =>
    intro r r' h
    simp only [proc_chunks] at h
    rcases hc : proc_chunk ref r c with e | r1 <;> rw [hc] at h <;>
      simp only [Except.bind] at h
    · cases h
    · rw [ih r1 r' h, proc_chunk_updates ref r c r1 hc]

/-- `compute_velocity` never touches `updates`. -/
theorem compute_velocity_updates (g : Geo) (r : ObjectRec) (r' : ObjectRec)
    (h : compute_velocity g r = .ok r') : r'.updates = r.updates := by
  unfold compute_velocity at h
  repeat' split at h
  all_goals first | (cases h; rfl) | cases h

/-- The tail of the update path: the chunk/velocity pipeline preserves
`updates`, the result record is returned and stored under `rec_id`, and
the database is untouched. -/
theorem proc_update_tail_store (g : Geo) (ref : Ref) (db : Db) (rec_id : Nat)
    (rec0 : ObjectRec) (chunks : List Str)
    (ref' : Ref) (db' : Db) (o : Option ObjectRec)
    (h : proc_update_tail g ref db rec_id rec0 chunks = .ok (ref', db', o)) :
    ∃ recF : ObjectRec, db' = db ∧ o = some recF
      ∧ recF.updates = rec0.updates
      ∧ ∀ k, storeGet ref'.obj_store k
          = storeGet (storeSet ref.obj_store rec_id recF) k := by
  unfold proc_update_tail at h
  rcases hpc : proc_chunks ref rec0 chunks with e | recK <;> rw [hpc] at h <;>
    simp only [Except.bind] at h
  · cases h
  rcases hcv : compute_velocity g recK with e | recV <;> rw [hcv] at h <;>
    simp only [Except.bind] at h
  · cases h
  have hu : recV.updates = rec0.updates := by
    rw [compute_velocity_updates g recK recV hcv,
        proc_chunks_updates ref chunks rec0 recK hpc]
  by_cases h1 : recV.updates = 1
  · rw [if_pos h1] at h
    rcases hsh : recV.should_have_parent with e | shp <;> rw [hsh] at h <;>
      simp only [Except.bind] at h
    · cases h
    cases shp with
    | false =>
      rw [if_neg (by simp)] at h
      cases h
      exact ⟨recV, rfl, rfl, hu, fun k => rfl⟩
    | true =>
      rw [if_pos rfl] at h
      rcases hdc : determine_contact g recV
          { ref with obj_store := storeSet ref.obj_store rec_id recV }
          (str "parent") with e | pinfo <;> rw [hdc] at h <;>
        simp only [Except.bind] at h
      · cases h
      cases pinfo with
      | none =>
        cases h
        exact ⟨recV, rfl, rfl, hu, fun k => rfl⟩
      | some c =>
        cases h
        refine ⟨{ recV with parent := c.id, parent_dist := some c.prox },
                rfl, rfl, hu, fun k => ?_⟩
        by_cases hk : k = rec_id <;> simp [hk, storeGet_storeSet]
  · rw [if_neg h1] at h
    cases h
    exact ⟨recV, rfl, rfl, hu, fun k => rfl⟩

/-- The removal branch: other keys untouched, the removed record's
`updates` bumped by exactly one, and the returned record accounted
for. -/
theorem proc_removal_store (g : Geo) (ref : Ref) (db : Db) (rid : Nat)
    (rec : ObjectRec) (ref' : Ref) (db' : Db) (o : Option ObjectRec)
    (hg : storeGet ref.obj_store rid = some rec)
    (h : proc_removal g ref db rid rec = .ok (ref', db', o)) :
    (∀ k, storeGet ref'.obj_store k = storeGet ref.obj_store k
       ∨ (∃ r r', storeGet ref.obj_store k = some r
            ∧ storeGet ref'.obj_store k = some r'
            ∧ r'.updates = r.updates + 1)
       ∨ (storeGet ref.obj_store k = none
            ∧ ∃ r', storeGet ref'.obj_store k = some r' ∧ r'.updates = 1))
    ∧ (∀ obj, o = some obj →
         obj.updates = 1
         ∨ ∃ r k, storeGet ref.obj_store k = some r
             ∧ obj.updates = r.updates + 1) := by
  unfold proc_removal at h
  dsimp only at h
  rcases ht : rec.Type_ with _ | t <;> simp only [ht] at h
  · cases h
  · by_cases hw : (containsSub t (str "Weapon")
        || containsSub t (str "Projectile")) = true
    · rw [if_pos hw] at h
      rcases hdc : determine_contact g
          ({ rec with
              alive := false
              updates := rec.updates + 1
              Type_ := some t })
          ({ ref with
              obj_store :=
                storeSet ref.obj_store rid
                  ({ rec with
                      alive := false
                      updates := rec.updates + 1
                      Type_ := some t }) })
          (str "impacted") with e | imp <;> rw [hdc] at h <;>
        simp only [Except.bind] at h
      · cases h
      cases imp with
      | none =>
        cases h
        refine ⟨fun k => ?_, fun obj hobj => ?_⟩
        · by_cases hk : k = rid
          · subst hk
            right; left
            exact ⟨rec, _, hg, by rw [storeGet_storeSet, if_pos rfl], rfl⟩
          · left
            simp [storeGet_storeSet, hk]
        · cases hobj
          right
          exact ⟨rec, rid, hg, rfl⟩
      | some c =>
        cases h
        refine ⟨fun k => ?_, fun obj hobj => ?_⟩
        · by_cases hk : k = rid
          · subst hk
            right; left
            exact ⟨rec, _, hg, by rw [storeGet_storeSet, if_pos rfl], rfl⟩
          · left
            simp [storeGet_storeSet, hk]
        · cases hobj
          right
          exact ⟨rec, rid, hg, rfl⟩
    · rw [if_neg hw] at h
      cases h
      refine ⟨fun k => ?_, fun obj hobj => ?_⟩
      · by_cases hk : k = rid
        · subst hk
          right; left
          exact ⟨rec, _, hg, by rw [storeGet_storeSet, if_pos rfl], rfl⟩
        · left
          simp [storeGet_storeSet, hk]
      · cases hobj
        right
        exact ⟨rec, rid, hg, rfl⟩

/-- The update/create path: per-key store change classification and the
returned record's `updates` accounted for. -/
theorem proc_update_line_store (g : Geo) (ref : Ref) (db : Db) (rec_id : Nat)
    (chunks : List Str) (ref' : Ref) (db' : Db) (o : Option ObjectRec)
    (h : proc_update_line g ref db rec_id chunks = .ok (ref', db', o)) :
    (∀ k, storeGet ref'.obj_store k = storeGet ref.obj_store k
       ∨ (∃ r r', storeGet ref.obj_store k = some r
            ∧ storeGet ref'.obj_store k = some r'
            ∧ r'.updates = r.updates + 1)
       ∨ (storeGet ref.obj_store k = none
            ∧ ∃ r', storeGet ref'.obj_store k = some r' ∧ r'.updates = 1))
    ∧ (∀ obj, o = some obj →
         obj.updates = 1
         ∨ ∃ r k, storeGet ref.obj_store k = some r
             ∧ obj.updates = r.updates + 1) := by
  unfold proc_update_line at h
  rcases hg : storeGet ref.obj_store rec_id with _ | rec <;> rw [hg] at h <;>
    dsimp only at h
  · obtain ⟨recF, hdb, ho, hupd, hstore⟩ :=
      proc_update_tail_store g ref db rec_id _ chunks ref' db' o h
    constructor
    · intro k
      rw [hstore k, storeGet_storeSet]
      by_cases hk : k = rec_id
      · subst hk
        rw [if_pos rfl]
        right; right
        exact ⟨hg, recF, rfl, hupd⟩
      · rw [if_neg hk]
        left; rfl
    · intro obj hobj
      rw [ho] at hobj
      cases hobj
      left
      exact hupd
  · obtain ⟨recF, hdb, ho, hupd, hstore⟩ :=
      proc_update_tail_store g ref db rec_id _ chunks ref' db' o h
    constructor
    · intro k
      rw [hstore k, storeGet_storeSet]
      by_cases hk : k = rec_id
      · subst hk
        rw [if_pos rfl]
        right; left
        exact ⟨rec, recF, hg, rfl, hupd⟩
      · rw [if_neg hk]
        left; rfl
    · intro obj hobj
      rw [ho] at hobj
      cases hobj
      right
      exact ⟨rec, rec_id, hg, hupd⟩


/-- Master store lemma for `line_to_obj`: at every key the store is
unchanged, or holds a record whose `updates` was bumped by exactly one,
or holds a newly created record with `updates = 1`; and any returned
record has `updates = 1` or one more than a record that was in the
store. -/
theorem line_to_obj_store (g : Geo) (line : Str) (ref : Ref) (db : Db)
    (ref' : Ref) (db' : Db) (o : Option ObjectRec)
    (h : line_to_obj g line ref db = .ok (ref', db', o)) :
    (∀ k, storeGet ref'.obj_store k = storeGet ref.obj_store k
       ∨ (∃ r r', storeGet ref.obj_store k = some r
            ∧ storeGet ref'.obj_store k = some r'
            ∧ r'.updates = r.updates + 1)
       ∨ (storeGet ref.obj_store k = none
            ∧ ∃ r', storeGet ref'.obj_store k = some r' ∧ r'.updates = 1))
    ∧ (∀ obj, o = some obj →
         obj.updates = 1
         ∨ ∃ r k, storeGet ref.obj_store k = some r
             ∧ obj.updates = r.updates + 1) := by
  unfold line_to_obj at h
  by_cases hz : line.take 1 = str "0"
  · rw [if_pos hz] at h
    cases h
    exact ⟨fun k => Or.inl rfl, fun obj hobj => by cases hobj⟩
  · rw [if_neg hz] at h
    by_cases hm : line.take 1 = str "-"
    · rw [if_pos hm] at h
      rcases hx : parseHex? (line.drop 1) with _ | rid <;>
        simp only [hx] at h
      · cases h
      rcases hg : storeGet ref.obj_store rid with _ | rec <;>
        simp only [hg] at h
      · cases h
      exact proc_removal_store g ref db rid rec ref' db' o hg h
    · rw [if_neg hm] at h
      dsimp only at h
      rcases hx : parseHex? (if decide (2 ≤ (splitOnChar ',' line).length) = true
          then (splitOnChar ',' line).headD [] else line.dropLast)
        with _ | rec_id <;> simp only [hx] at h
      · cases h
      exact proc_update_line_store g ref db rec_id _ ref' db' o h

set_option maxHeartbeats 1000000 in
/-- Header parsing never touches the object store. -/
theorem parse_ref_obj_stable (r : Ref) (db : Db) (line : Str) (r' : Ref)
    (db' : Db) (h : parse_ref_obj r db line = .ok (r', db')) :
    r'.obj_store = r.obj_store := by
  unfold parse_ref_obj at h
  dsimp only at h
  repeat' split at h
  all_goals (try cases h)
  all_goals (try rfl)
  all_goals (rename_i heq _; repeat' split at heq)
  all_goals (try cases heq)
  all_goals (try rfl)

/-- Time ticks never touch the object store. -/
theorem update_time_stable (r : Ref) (s : Str) (r' : Ref)
    (h : r.update_time s = .ok r') : r'.obj_store = r.obj_store := by
  unfold Ref.update_time at h
  split at h
  · cases h
  · cases h; rfl

/-- The store invariant of C7: every stored record has `updates ≥ 1`. -/
def StoreInv (st : Store) : Prop :=
  ∀ k r, storeGet st k = some r → 1 ≤ r.updates

/-- One consumer step preserves the `updates ≥ 1` invariant. -/
theorem consumer_step_inv (g : Geo) (w : World) (line : Str) (w' : World)
    (h : consumer_step g w line = .ok w')
    (hinv : StoreInv w.ref.obj_store) : StoreInv w'.ref.obj_store := by
  unfold consumer_step at h
  by_cases hr : (!w.ref.all_refs) = true
  · rw [if_pos hr] at h
    rcases hpr : parse_ref_obj w.ref w.db line with e | pr <;> rw [hpr] at h <;>
      simp only [Except.map] at h
    · cases h
    obtain ⟨r', db'⟩ := pr
    cases h
    intro k rr hget
    rw [parse_ref_obj_stable w.ref w.db line r' db' hpr] at hget
    exact hinv k rr hget
  · rw [if_neg hr] at h
    by_cases ht : line.take 1 = str "#"
    · rw [if_pos ht] at h
      rcases hut : w.ref.update_time line with e | r' <;> rw [hut] at h <;>
        simp only [Except.map] at h
      · cases h
      cases h
      intro k rr hget
      rw [update_time_stable w.ref line r' hut] at hget
      exact hinv k rr hget
    · rw [if_neg ht] at h
      rcases hlt : line_to_obj g line w.ref w.db with e | trip <;>
        rw [hlt] at h <;> simp only [Except.bind] at h
      · cases h
      obtain ⟨r', db', o⟩ := trip
      obtain ⟨hstore, hobj⟩ := line_to_obj_store g line w.ref w.db r' db' o hlt
      have hinv' : StoreInv r'.obj_store := by
        intro k rr hget
        rcases hstore k with heq | ⟨r0, r0', hg0, hg0', hupd⟩ | ⟨hg0, r0', hg0', hupd⟩
        · rw [heq] at hget
          exact hinv k rr hget
        · rw [hget] at hg0'
          cases hg0'
          omega
        · rw [hget] at hg0'
          cases hg0'
          omega
      cases o with
      | none =>
        dsimp only at h
        cases h
        exact hinv'
      | some obj =>
        dsimp only at h
        have hobjupd : 1 ≤ obj.updates := by
          rcases hobj obj rfl with h1 | ⟨r0, k0, hg0, hupd⟩
          · omega
          · omega
        rcases hcs : (if (!obj.written) = true then create_single obj db'
            else .ok (obj, db')) with e | pr <;> rw [hcs] at h <;>
          simp only [Except.bind] at h
        · cases h
        obtain ⟨obj2, db2⟩ := pr
        have hobj2 : obj2.updates = obj.updates := by
          by_cases hwr : (!obj.written) = true
          · rw [if_pos hwr] at hcs
            unfold create_single at hcs
            rcases hcbp : obj.can_be_parent with e | b <;> rw [hcbp] at hcs <;>
              simp only [Except.map] at hcs
            · cases hcs
            · cases hcs; rfl
          · rw [if_neg hwr] at hcs
            cases hcs; rfl
        rcases had : add_data w.writer obj2 with e | wr' <;> rw [had] at h <;>
          simp only [Except.map] at h
        · cases h
        cases h
        intro k rr hget
        simp only [storeGet_storeSet] at hget
        by_cases hk : k = obj2.tac_id
        · rw [if_pos hk] at hget
          cases hget
          rw [hobj2]
          exact hobjupd
        · rw [if_neg hk] at hget
          exact hinv' k rr hget

/-- The exception handler does not touch the store, so a full run from
any invariant-satisfying world preserves the invariant. -/
theorem consumer_run_inv (g : Geo) :
    ∀ (lines : List Str) (w : World), StoreInv w.ref.obj_store →
      StoreInv (consumer_run g w lines).1.ref.obj_store := by
  intro lines
  induction lines with
  | nil =>
    intro w hinv
    exact hinv
  | cons l ls ih =>
    intro w hinv
    show StoreInv (match consumer_catch g w l with
      | (w', none) => consumer_run g w' ls
      | (w', some e) => (w', some e)).1.ref.obj_store
    unfold consumer_catch
    rcases hcs : consumer_step g w l with e | w'
    · exact hinv
    · exact ih w' (consumer_step_inv g w l w' hcs hinv)

/-- A live, already-written record stored under key 3, `updates = 3`,
with all kinematic fields bound. -/
def recPlain : ObjectRec :=
  { tac_id := 3, first_seen := 0, last_seen := 10, session_id := some 1,
    id := some 1, Type_ := some (str "Air+Plane"), lat := some 2,
    lon := some 1, alt := some 3, cart_coords := some (2, 1, 3),
    written := true, updates := 3 }

/-- Reference state holding `recPlain`. -/
def refClobber : Ref :=
  { refSteady with obj_store := [(3, recPlain)] }

/-- `recPlain` after the frame `3,updates=0`: `last_seen` advanced,
the typed `updates` field stale at its pre-clobber value 4, and the
`updates` slot itself holding the raw string `"0"`. -/
def recClobbered : ObjectRec :=
  { recPlain with
    secs_since_last_seen := some 0
    updates := 4
    py_str_slots := [(str "updates", str "0")] }

/-- **C7**, counterexample.  The claim says `updates` starts at 1, is
incremented by exactly 1 per update/removal frame, and `updates ≥ 1`
holds for every stored record at all times.  But `update_val` (lines
200–202) is a bare `setattr` over `__slots__`: the grammar-valid update
frame `3,updates=0` succeeds in `line_to_obj` — the `rec.updates == 1`
parent check is merely false for a string — and leaves the stored
record's `updates` slot holding the Python *string* `'0'`: not an
integer `≥ 1`, and not the previous value 3 incremented by 1.  (In the
source the run then dies in `add_data` when `struct.pack` receives the
string, but the store already held the violating record.) -/
theorem c7_updates_key_clobbers_record :
    line_to_obj geoL1 (str "3,updates=0") refClobber {}
      = .ok ({ refClobber with
               obj_store := storeSet refClobber.obj_store 3 recClobbered },
             {}, some recClobbered)
    ∧ storeGet (storeSet refClobber.obj_store 3 recClobbered) 3
        = some recClobbered
    ∧ slotGet recClobbered.py_str_slots (str "updates") = some (str "0")
    ∧ recPlain.updates = 3
    ∧ slotGet recPlain.py_str_slots (str "updates") = none := by
  decide

/-- **C7**, amended.  For every record whose `updates` slot holds its
integer value (no raw-string overwrite via an update frame carrying the
literal key `updates`): (1) a record is created with `updates = 1` and
an empty ledger; (2) across any successful `line_to_obj` step, a record
present before and after — both with an unclobbered `updates` slot —
has `updates` unchanged or incremented by exactly 1, never decreased;
(3) in any reachable state of a consumer run from the initial world,
every stored record with an unclobbered `updates` slot satisfies
`updates ≥ 1`. -/
theorem c7_updates_invariant_unclobbered :
    (∀ (tac : Nat) (fs ls : ℚ) (sid : Option Nat),
        (ObjectRec.new tac fs ls sid).updates = 1
        ∧ (ObjectRec.new tac fs ls sid).py_str_slots = [])
    ∧ (∀ (g : Geo) (line : Str) (ref : Ref) (db : Db) (ref' : Ref) (db' : Db)
         (o : Option ObjectRec) (k : Nat) (r r' : ObjectRec),
        line_to_obj g line ref db = .ok (ref', db', o) →
        storeGet ref.obj_store k = some r →
        storeGet ref'.obj_store k = some r' →
        slotGet r.py_str_slots (str "updates") = none →
        slotGet r'.py_str_slots (str "updates") = none →
        r'.updates = r.updates ∨ r'.updates = r.updates + 1)
    ∧ (∀ (g : Geo) (batch : Nat) (lines : List Str) (k : Nat) (r : ObjectRec),
        storeGet (consumer_run g (init_world batch) lines).1.ref.obj_store k
          = some r →
        slotGet r.py_str_slots (str "updates") = none →
        1 ≤ r.updates) := by
  refine ⟨fun tac fs ls sid => ⟨rfl, rfl⟩, ?_, ?_⟩
  · intro g line ref db ref' db' o k r r' h hget hget' _ _
    obtain ⟨hstore, _⟩ := line_to_obj_store g line ref db ref' db' o h
    rcases hstore k with heq | ⟨r0, r0', hg0, hg0', hupd⟩ | ⟨hg0, _, _, _⟩
    · rw [heq, hget] at hget'
      cases hget'
      left; rfl
    · rw [hget] at hg0
      rw [hget'] at hg0'
      cases hg0
      cases hg0'
      right
      exact hupd
    · rw [hget] at hg0
      cases hg0
  · intro g batch lines k r hget _
    exact consumer_run_inv g lines (init_world batch)
      (fun k r hg => by cases hg) k r hget

/-- The frames of the C7 run witness: a complete header, a tick, and
one creation line. -/
def c7lines : List Str := c1_frames_one ++ [str "3,T=1|2|3,Type=Air+Plane"]

/-- The reference state after the weapon-removal frame. -/
def refAfterRemoval : Ref :=
  { refImpact with
    obj_store :=
      storeSet (storeSet refImpact.obj_store 2 weaponDead) 2 weaponImpacted }

/-- The database after the weapon-removal frame. -/
def dbAfterRemoval : Db :=
  { impacts := [⟨weaponDead.session_id, weaponDead.parent, contactAir.id,
                 weaponDead.id, refImpact.time_offset, some contactAir.prox⟩] }

/-- Witness for `c7_updates_invariant_unclobbered`: a fresh record has
`updates = 1` and an empty slot ledger; the weapon-removal step bumps
the stored weapon's `updates` by one (both records unclobbered); and
the record created by a concrete consumer run satisfies `updates ≥ 1`. -/
theorem c7_updates_invariant_unclobbered_witness :
    ((ObjectRec.new 2050 0 0 (some 1)).updates = 1
      ∧ (ObjectRec.new 2050 0 0 (some 1)).py_str_slots = [])
    ∧ (weaponImpacted.updates = weaponRec.updates
        ∨ weaponImpacted.updates = weaponRec.updates + 1)
    ∧ 1 ≤ ((storeGet
        (consumer_run geoL1 (init_world 10000) c7lines).1.ref.obj_store 3).get
          (by decide)).updates :=
  ⟨c7_updates_invariant_unclobbered.1 2050 0 0 (some 1),
   c7_updates_invariant_unclobbered.2.1 geoL1 ('-' :: str "2") refImpact {}
     refAfterRemoval dbAfterRemoval (some weaponImpacted) 2
     weaponRec weaponImpacted (by decide) (by decide) (by decide)
     (by decide) (by decide),
   c7_updates_invariant_unclobbered.2.2 geoL1 10000 c7lines 3 _
     (Option.some_get _).symm (by decide)⟩

end Tacview
